import Mathlib

/-!
Verification of the IsoCard scene/physics synchronization layer
(`src/isocard.ts`, class `IsoCard`).

The TypeScript class is shallowly embedded: the registry, layer table,
render handles ("three objects"), physics bodies and the gravity model
become plain Lean data; each method that a claim touches becomes a pure
state-transition function translated line by line from the source.

Modelling conventions, used throughout:
* JS numbers are modelled as `ℚ` (all arithmetic the verified claims
  touch is exact rational arithmetic).
* A JS field that may be `undefined` is an `Option`; JS falsy-defaulting
  (`x || d`, where both `undefined` and `0` / `""` pick the default) is
  `jsOrQ` / `jsStr`, while `x !== undefined ? x : d` is `Option.getD`.
* Render handles live in a heap (`List (ℕ × Obj3D)`), keyed by an
  allocation counter, so that the registry, the scene set and the
  dynamic-object list can alias one object exactly as JS references do.
* Orientations are kept symbolically (`Orient`): the engine only ever
  copies whole orientations between configs, handles, snapshots and
  bodies in the verified claims, so the numeric euler/quaternion
  conversion (an irrational-factor computation done by three.js) is
  represented by the data that determines it.
* External-collaborator details with no bearing on any claim (WebGL
  rendering, cameras, pointer picking, shadows, fog/background colors)
  are out of scope, exactly as the specification's §1 declares them.
-/

namespace IsoCard

/-- 3-component vector (`THREE.Vector3` values used by the core). -/
structure V3 where
  x : ℚ
  y : ℚ
  z : ℚ
deriving DecidableEq, Repr

/-- Quaternion components, as stored in a 4-element `rot` array. -/
structure Quat4 where
  x : ℚ
  y : ℚ
  z : ℚ
  w : ℚ
deriving DecidableEq, Repr

/-- Symbolic orientation state of a render handle or body: the engine
sets it from `euler` (degrees), a 4-component `rot` (quaternion), a
3-component `rot` (radians), or leaves the default. -/
inductive Orient where
  | identity
  | fromEulerDeg (v : V3)
  | fromQuat (q : Quat4)
  | fromEulerRad (v : V3)
deriving DecidableEq, Repr

/-- JS `a || d` on an optional number: `undefined` and `0` both fall
back to the default `d`. -/
def jsOrQ (o : Option ℚ) (d : ℚ) : ℚ :=
  match o with
  | none => d
  | some v => if v = 0 then d else v

/-- JS `a || d` on an optional string: `undefined` and `""` both fall
back to the default `d`. -/
def jsStr (o : Option String) (d : String) : String :=
  match o with
  | none => d
  | some s => if s = "" then d else s

/-- JS truthiness of an optional number (`config.physics?.gravityStrength`). -/
def jsTruthyQ (o : Option ℚ) : Bool :=
  match o with
  | none => false
  | some v => decide (v ≠ 0)

/-- `type` field of a scene-descriptor object. -/
inductive ConfigType where
  | scene
  | light
  | helper
  | mesh
  | group
  | unrecognized (s : String)
deriving DecidableEq, Repr

/-- `shape.type` values known to `createGeometry`; anything else hits
the `default:` branch. -/
inductive ShapeType where
  | box
  | sphere
  | plane
  | cylinder
  | cone
  | torus
  | circle
  | ring
  | dodecahedron
  | icosahedron
  | octahedron
  | tetrahedron
  | torusknot
  | capsule
  | unrecognized (s : String)
deriving DecidableEq, Repr

/-- Shape descriptor: the dimension fields the engine reads.  Segment
counts and arc parameters only shape render tessellation and are never
read by the scaling / physics code, so they are not tracked. -/
structure ShapeCfg where
  type : Option ShapeType := none
  width : Option ℚ := none
  height : Option ℚ := none
  depth : Option ℚ := none
  radius : Option ℚ := none
  radiusTop : Option ℚ := none
  radiusBottom : Option ℚ := none
  tube : Option ℚ := none
  innerRadius : Option ℚ := none
  outerRadius : Option ℚ := none
  halfExtent : Option V3 := none
deriving DecidableEq, Repr

/-- `material.type` values known to `createMaterialFromObj`. -/
inductive MatType where
  | basic
  | lambert
  | phong
  | standard
  | physical
  | toon
  | normal
  | depth
  | linebasic
  | linedashed
  | points
  | sprite
  | shadow
  | unrecognized (s : String)
deriving DecidableEq, Repr

/-- Material descriptor fields the verified claims read. -/
structure MaterialCfg where
  type : Option MatType := none
  color : Option ℕ := none
  opacity : Option ℚ := none
  transparent : Option Bool := none
deriving DecidableEq, Repr

/-- Live state of a constructed three.js material (the two fields the
layer-opacity logic mutates). -/
structure MaterialState where
  transparent : Bool
  opacity : ℚ
deriving DecidableEq, Repr

/-- Physics motion classification. -/
inductive MotionKind where
  | static
  | dynamic
  | kinematic
deriving DecidableEq, Repr

/-- `physics` block of a descriptor. -/
structure PhysCfg where
  motionType : Option MotionKind := none
  mass : Option ℚ := none
  friction : Option ℚ := none
  restitution : Option ℚ := none
  gravityStrength : Option ℚ := none
deriving DecidableEq, Repr

/-- `gravity` block of a `"scene"` descriptor / `sceneConfig.gravity`. -/
inductive GravKind where
  | uniform
  | radial
deriving DecidableEq, Repr

structure GravityCfg where
  type : Option GravKind := none
  vector : Option V3 := none
  strength : Option ℚ := none
deriving DecidableEq, Repr

/-- `lightType` values known to `addObject` / `replaceObject`. -/
inductive LightType where
  | directional
  | ambient
  | point
  | spot
  | hemisphere
  | unrecognized (s : String)
deriving DecidableEq, Repr

/-- `helperType` values known to `addObject` / `replaceObject`. -/
inductive HelperType where
  | grid
  | axes
  | unrecognized (s : String)
deriving DecidableEq, Repr

/-- A scene-descriptor object (one element of the JSON array / the
argument of `addObject`, `replaceObject`, `updateObject`). -/
structure Config where
  type : Option ConfigType := none
  name : Option String := none
  pos : Option V3 := none
  euler : Option V3 := none
  rot : Option (List ℚ) := none
  scale : Option V3 := none
  layer : Option String := none
  enabled : Option Bool := none
  shape : Option ShapeCfg := none
  material : Option MaterialCfg := none
  color : Option ℕ := none
  physics : Option PhysCfg := none
  lightType : Option LightType := none
  helperType : Option HelperType := none
  intensity : Option ℚ := none
  gravity : Option GravityCfg := none
deriving DecidableEq, Repr

/-- Jolt collision shapes produced by the conversion switch.  Numeric
fields are `Option ℚ`: `none` plays the role of the `NaN` that JS
arithmetic on an absent field would produce. -/
inductive JoltShape where
  | box (hx hy hz : Option ℚ)
  | sphere (r : Option ℚ)
  | cylinder (halfHeight radius : Option ℚ)
  | capsule (halfHeight radius : Option ℚ)
deriving DecidableEq, Repr

/-- Class constants `IsoCard.LAYER_NON_MOVING` / `IsoCard.LAYER_MOVING`. -/
def LAYER_NON_MOVING : ℕ := 0
def LAYER_MOVING : ℕ := 1

/-- A Jolt body as far as the core reads/writes it. -/
structure Body where
  pos : V3
  rot : Orient
  linVel : V3 := ⟨0, 0, 0⟩
  angVel : V3 := ⟨0, 0, 0⟩
  motion : MotionKind
  objLayer : ℕ
  shape : JoltShape
  massOverride : Option ℚ := none
  friction : Option ℚ := none
  restitution : Option ℚ := none
deriving DecidableEq, Repr

/-- A render handle (`threeObj`): mesh, light, helper or group, with
the `userData` fields the core stores on it. -/
structure Obj3D where
  key : ℕ
  isMesh : Bool := false
  isGroup : Bool := false
  position : V3 := ⟨0, 0, 0⟩
  orient : Orient := .identity
  scale : V3 := ⟨1, 1, 1⟩
  visible : Bool := true
  geomShape : Option ShapeCfg := none
  material : Option MaterialState := none
  body : Option Body := none
  userLayer : Option String := none
  userEnabled : Option Bool := none
  bbSize : V3 := ⟨0, 0, 0⟩
  lightColor : Option ℕ := none
  lightIntensity : Option ℚ := none
deriving DecidableEq, Repr

/-- One registry entry of `this.objects`: `{ id, threeObj, config }`;
`threeObj` is the heap key of the render handle. -/
structure Entry where
  id : Option String
  threeObj : ℕ
  config : Config
deriving DecidableEq, Repr

/-- `this.layers[name]`. -/
structure LayerInfo where
  visible : Bool
  opacity : ℚ
deriving DecidableEq, Repr

/-- Transform snapshot stored in `savedTransforms`. -/
structure Snapshot where
  position : V3
  orient : Orient
  scale : V3
deriving DecidableEq, Repr

/-- The mutable state of one `IsoCard` instance (the fields the
verified claims touch). -/
structure ICState where
  layers : List (String × LayerInfo) := [("main", ⟨true, 1⟩)]
  objects : List Entry := []
  heap : List (ℕ × Obj3D) := []
  sceneKeys : List ℕ := []
  dynamicKeys : List ℕ := []
  disposedKeys : List ℕ := []
  savedTransforms : List (Option String × Snapshot) := []
  physInit : Bool := false
  isPhysicsRunning : Bool := false
  time : ℚ := 0
  lastActionTime : ℚ := 0
  gravityType : GravKind := .uniform
  gravityStrength : ℚ := 1000
  gravityCenter : V3 := ⟨0, 0, 0⟩
  attractors : List (V3 × ℚ) := []
  sceneGravity : GravityCfg := { type := some .uniform, vector := some ⟨0, -981/100, 0⟩ }
  engineGravity : V3 := ⟨0, -981/100, 0⟩
  nextKey : ℕ := 0
deriving DecidableEq, Repr

/-! ### Association-list helpers (JS object maps / object references) -/

def lookupLayer (ls : List (String × LayerInfo)) (k : String) : Option LayerInfo :=
  (ls.find? (fun p => p.1 == k)).map (·.2)

def setLayer (ls : List (String × LayerInfo)) (k : String) (f : LayerInfo → LayerInfo) :
    List (String × LayerInfo) :=
  ls.map (fun p => if p.1 == k then (p.1, f p.2) else p)

/-- Create `this.layers[k] = li` when the key is missing (no-op otherwise). -/
def ensureLayer (ls : List (String × LayerInfo)) (k : String) (li : LayerInfo) :
    List (String × LayerInfo) :=
  if (lookupLayer ls k).isSome then ls else ls ++ [(k, li)]

def lookupHeap (h : List (ℕ × Obj3D)) (k : ℕ) : Option Obj3D :=
  (h.find? (fun p => p.1 == k)).map (·.2)

def setHeap (h : List (ℕ × Obj3D)) (k : ℕ) (o : Obj3D) : List (ℕ × Obj3D) :=
  h.map (fun p => if p.1 == k then (k, o) else p)

/-! ### Shape / material construction (`createGeometry`, `createMaterialFromObj`)

Geometry and material construction belong to the excluded Shape/Material
Translator; the core only observes *whether* they succeed and, for
materials, the initial `transparent` / `opacity` values.  `createGeometry`
returns the (defaulted) descriptor it would tessellate; `none` is the
`return null` of the `default:` branch. -/

def supportedShape (t : ShapeType) : Bool :=
  match t with
  | .unrecognized _ => false
  | _ => true

/-- `createGeometry(shape)` (isocard.ts 1148-1277): succeeds exactly on the
fourteen known `shape.type` strings; `switch` on an absent type hits
`default:` and returns `null`. -/
def createGeometry (shape : Option ShapeCfg) : Option ShapeCfg :=
  match shape with
  | none => none
  | some sh =>
    match sh.type with
    | none => none
    | some t => if supportedShape t then some sh else none

def supportedMat (t : MatType) : Bool :=
  match t with
  | .unrecognized _ => false
  | _ => true

/-- `createMaterialFromObj(materialObj)` (isocard.ts 1279-1404): the
`commonProps` relevant to the core are `transparent` (`|| false`) and
`opacity` (`!== undefined ? : 1`); unknown types return `null`; an absent
type falls back to `"phong"`. -/
def createMaterialFromObj (materialObj : MaterialCfg) : Option MaterialState :=
  let t := materialObj.type.getD .phong
  if supportedMat t then
    some { transparent := materialObj.transparent.getD false,
           opacity := materialObj.opacity.getD 1 }
  else none

/-! ### Shape Scaler (`getScaledShapeDimensions`, isocard.ts 2465-2507) -/

/-- `Math.max` of the three scale components. -/
def qmax3 (a b c : ℚ) : ℚ := max (max a b) c

/-- `getScaledShapeDimensions(config, mesh)`: derives the physics shape
descriptor from the authored `config.shape` and the mesh's current scale.
A `shape.type` outside the six-case `switch` falls through and returns
the spread copy unchanged. -/
def getScaledShapeDimensions (config : Config) (mesh : Obj3D) : Option ShapeCfg :=
  let scale := mesh.scale
  match config.shape with
  | none => none
  | some shape =>
    match shape.type with
    | some .box =>
      some { shape with
        width := some (jsOrQ shape.width 1 * scale.x),
        height := some (jsOrQ shape.height 1 * scale.y),
        depth := some (jsOrQ shape.depth 1 * scale.z) }
    | some .sphere =>
      some { shape with
        radius := some (jsOrQ shape.radius 1 * qmax3 scale.x scale.y scale.z) }
    | some .plane =>
      some { shape with
        width := some (jsOrQ shape.width 1 * scale.x),
        height := some (jsOrQ shape.height 1 * scale.z) }
    | some .cylinder =>
      some { shape with
        radiusTop := some (jsOrQ shape.radiusTop 1 * max scale.x scale.z),
        radiusBottom := some (jsOrQ shape.radiusBottom 1 * max scale.x scale.z),
        height := some (jsOrQ shape.height 1 * scale.y) }
    | some .cone =>
      some { shape with
        radius := some (jsOrQ shape.radius 1 * max scale.x scale.z),
        height := some (jsOrQ shape.height 1 * scale.y) }
    | some .torus =>
      some { shape with
        radius := some (jsOrQ shape.radius 1 * max scale.x scale.z),
        tube := some (jsOrQ shape.tube (2/5) * qmax3 scale.x scale.y scale.z) }
    | _ => some shape

/-- Effective box width of a descriptor, the way every consumer reads it
(`shape.width || 1`). -/
def effWidth (sh : ShapeCfg) : ℚ := jsOrQ sh.width 1
def effHeight (sh : ShapeCfg) : ℚ := jsOrQ sh.height 1
def effDepth (sh : ShapeCfg) : ℚ := jsOrQ sh.depth 1
def effRadius (sh : ShapeCfg) : ℚ := jsOrQ sh.radius 1
def effRadiusTop (sh : ShapeCfg) : ℚ := jsOrQ sh.radiusTop 1
def effRadiusBottom (sh : ShapeCfg) : ℚ := jsOrQ sh.radiusBottom 1
def effTube (sh : ShapeCfg) : ℚ := jsOrQ sh.tube (2/5)

/-! ### Simulation loop timing (`animate` 1432-1435/1462, `updatePhysics` 1575-1581) -/

/-- `deltaTime = Math.min(deltaTime, 1.0 / 30.0)` — the spiral-of-death clamp. -/
def clampDelta (deltaTime : ℚ) : ℚ := min deltaTime (1/30)

/-- `var numSteps = deltaTime > 1.0 / 55.0 ? 2 : 1` — sub-step choice. -/
def numSteps (deltaTime : ℚ) : ℕ := if deltaTime > 1/55 then 2 else 1

/-! ### Radial gravity (`animate`, isocard.ts 1437-1459)

The per-body force the tick computes is `unitDir.Mul(-forceMag * mass)`
with `unitDir = dir.Normalized()`.  Normalization divides by the
(irrational) length of `dir`; the computed force is therefore recorded
as the pair of the rational scalar `-forceMag * mass` and the
pre-normalization direction `dir = pos - center`, which determine it:
the real force is `coeff • (dir / ‖dir‖)`, so its magnitude is `|coeff|`
and its direction is that of `coeff • dir`. -/

inductive TickForce where
  | noForce
  | applied (coeff : ℚ) (dirFromCenter : V3)
deriving DecidableEq, Repr

def subV (a b : V3) : V3 := ⟨a.x - b.x, a.y - b.y, a.z - b.z⟩

/-- `dir.LengthSq()`. -/
def lengthSq (v : V3) : ℚ := v.x * v.x + v.y * v.y + v.z * v.z

/-- The radial-gravity computation `animate` performs for one dynamic
body per tick: guard on `distSq > 0.0001`, exempt zero inverse mass,
otherwise apply `unitDir.Mul(-(strength/distSq) * mass)`. -/
def radialTickForce (strength : ℚ) (center pos : V3) (invMass : ℚ) : TickForce :=
  let dir := subV pos center
  let distSq := lengthSq dir
  if distSq > 1/10000 then
    let forceMag := strength / distSq
    let mass := if invMass > 0 then 1 / invMass else 0
    if mass > 0 then .applied (-(forceMag * mass)) dir else .noForce
  else .noForce

/-- The per-tick radial-gravity pass of `animate` (isocard.ts 1437-1459):
iterates `dynamicObjects`, reads each body's position, and computes the
force with center `this.gravityCenter` and strength `this.gravityStrength`.
`invMassOf` is the engine-reported `GetInverseMass()` oracle. -/
def applyRadialGravity (s : ICState) (invMassOf : ℕ → ℚ) : List (ℕ × TickForce) :=
  if s.gravityType = .radial then
    s.dynamicKeys.filterMap (fun k =>
      match lookupHeap s.heap k with
      | some o =>
        match o.body with
        | some b =>
          some (k, radialTickForce s.gravityStrength s.gravityCenter b.pos (invMassOf k))
        | none => none
      | none => none)
  else []

/-! ### Gravity configuration (`setGravityConfig`, isocard.ts 2574-2591) -/

def setGravityConfig (s : ICState) (config : GravityCfg) : ICState :=
  -- `this.sceneConfig.gravity = { ...this.sceneConfig.gravity, ...config }`
  let merged : GravityCfg :=
    { type := config.type <|> s.sceneGravity.type,
      vector := config.vector <|> s.sceneGravity.vector,
      strength := config.strength <|> s.sceneGravity.strength }
  let gt := merged.type.getD .uniform
  let s1 := { s with sceneGravity := merged, gravityType := gt }
  if s1.physInit then
    if gt = .uniform then
      { s1 with engineGravity := merged.vector.getD ⟨0, -981/100, 0⟩ }
    else
      -- radial: zero the engine's native gravity; the center is left to
      -- "be set when adding the planet" (source comment, line 2587)
      { s1 with engineGravity := ⟨0, 0, 0⟩, gravityStrength := jsOrQ merged.strength 1000 }
  else s1

/-! ### Object construction helpers shared by `addObject` / `replaceObject` -/

def jsOrN (o : Option ℕ) (d : ℕ) : ℕ :=
  match o with
  | none => d
  | some v => if v = 0 then d else v

def lightSupported (t : LightType) : Bool :=
  match t with
  | .unrecognized _ => false
  | _ => true

/-- The `switch (config.lightType)` of both entry points: a known type
yields a light handle at `config.pos`, anything else returns `null`. -/
def buildLight (cfg : Config) (key : ℕ) : Option Obj3D :=
  match cfg.lightType with
  | none => none
  | some lt =>
    if lightSupported lt then
      some { key := key,
             position := cfg.pos.getD ⟨0, 0, 0⟩,
             lightColor := cfg.color,
             lightIntensity := cfg.intensity }
    else none

def helperSupported (t : HelperType) : Bool :=
  match t with
  | .unrecognized _ => false
  | _ => true

def buildHelper (cfg : Config) (key : ℕ) : Option Obj3D :=
  match cfg.helperType with
  | none => none
  | some ht =>
    if helperSupported ht then
      some { key := key, position := cfg.pos.getD ⟨0, 0, 0⟩ }
    else none

/-- Group path: position / euler (degrees) / scale only. -/
def buildGroup (cfg : Config) (key : ℕ) : Obj3D :=
  { key := key, isGroup := true,
    position := cfg.pos.getD ⟨0, 0, 0⟩,
    orient := match cfg.euler with
      | some v => .fromEulerDeg v
      | none => .identity,
    scale := cfg.scale.getD ⟨1, 1, 1⟩ }

/-- Rotation precedence of the mesh paths: `euler` (degrees) wins, else a
4-component `rot` is a quaternion, else a 3-component `rot` is radians. -/
def orientOf (cfg : Config) : Orient :=
  match cfg.euler with
  | some v => .fromEulerDeg v
  | none =>
    match cfg.rot with
    | some r =>
      if r.length = 4 then
        .fromQuat ⟨r.getD 0 0, r.getD 1 0, r.getD 2 0, r.getD 3 0⟩
      else
        .fromEulerRad ⟨r.getD 0 0, r.getD 1 0, r.getD 2 0⟩
    | none => .identity

/-- `config.material ? config.material : { type: "phong", color: config.color || 0xffffff }`. -/
def defaultedMaterial (cfg : Config) : MaterialCfg :=
  match cfg.material with
  | some m => m
  | none => { type := some .phong, color := some (jsOrN cfg.color 0xffffff) }

/-- The generated fallback name `` `${config.shape?.type || config.type ||
"object"} ${id}` ``. -/
def shapeTypeName (t : ShapeType) : String :=
  match t with
  | .box => "box"
  | .sphere => "sphere"
  | .plane => "plane"
  | .cylinder => "cylinder"
  | .cone => "cone"
  | .torus => "torus"
  | .circle => "circle"
  | .ring => "ring"
  | .dodecahedron => "dodecahedron"
  | .icosahedron => "icosahedron"
  | .octahedron => "octahedron"
  | .tetrahedron => "tetrahedron"
  | .torusknot => "torusknot"
  | .capsule => "capsule"
  | .unrecognized s => s

def configTypeName (t : ConfigType) : String :=
  match t with
  | .scene => "scene"
  | .light => "light"
  | .helper => "helper"
  | .mesh => "mesh"
  | .group => "group"
  | .unrecognized s => s

def autoName (cfg : Config) (id : Option String) : String :=
  (match cfg.shape.bind (·.type) with
   | some t => shapeTypeName t
   | none =>
     match cfg.type with
     | some t => configTypeName t
     | none => "object") ++ " " ++ (match id with
   | some s => s
   | none => "undefined")

/-- Common tail of `addObject` (isocard.ts 462-479): stamp `userData`,
default the stored name, append the entry, add the handle to the scene. -/
def finishAdd (s : ICState) (cfg : Config) (obj0 : Obj3D) : Option (Option String) × ICState :=
  let id := cfg.name
  let newConfig := if cfg.name.isSome then cfg else { cfg with name := some (autoName cfg id) }
  let obj := { obj0 with userLayer := cfg.layer, userEnabled := cfg.enabled }
  (some id,
   { s with
     objects := s.objects ++ [⟨id, obj.key, newConfig⟩],
     heap := s.heap ++ [(obj.key, obj)],
     sceneKeys := s.sceneKeys ++ [obj.key],
     nextKey := s.nextKey + 1 })

/-- Mesh branch of `addObject` (isocard.ts 386-447): construct geometry and
material, scale the material opacity by the (already ensured) layer's
opacity, assemble the mesh, and register a radial-gravity attractor for a
static sphere with a truthy `gravityStrength`. -/
def addMeshPath (s : ICState) (cfg : Config) (L : String) : Option (Option String) × ICState :=
  match createGeometry cfg.shape with
  | none => (none, s)
  | some geom =>
    match createMaterialFromObj (defaultedMaterial cfg) with
    | none => (none, s)
    | some mat0 =>
      let layerOpacity : ℚ := ((lookupLayer s.layers L).map (·.opacity)).getD 1
      let mat :=
        if layerOpacity < 1 then
          { mat0 with transparent := true, opacity := mat0.opacity * layerOpacity }
        else mat0
      let layerVisible := ((lookupLayer s.layers L).map (·.visible)).getD true
      let mesh : Obj3D :=
        { key := s.nextKey, isMesh := true,
          position := cfg.pos.getD ⟨0, 0, 0⟩,
          orient := orientOf cfg,
          scale := cfg.scale.getD ⟨1, 1, 1⟩,
          visible := cfg.enabled.getD true && layerVisible,
          geomShape := some geom,
          material := some mat }
      let s1 :=
        if cfg.shape.bind (·.type) = some ShapeType.sphere ∧
           cfg.physics.bind (·.motionType) = some MotionKind.static ∧
           jsTruthyQ (cfg.physics.bind (·.gravityStrength)) = true then
          { s with
            attractors := s.attractors ++
              [(mesh.position, (cfg.physics.bind (·.gravityStrength)).getD 0)] }
        else s
      finishAdd s1 cfg mesh

/-- `addObject(config)` (isocard.ts 275-484).  Returns the id the JS
returns on the store path (`some id`, where `id = config.name` may itself
be absent) and `none` for every `return null` path. -/
def addObject (s0 : ICState) (config : Config) : Option (Option String) × ICState :=
  let cfg := { config with
    enabled := some (config.enabled.getD true),
    layer := some (jsStr config.layer "main") }
  let L := jsStr config.layer "main"
  let s := { s0 with layers := ensureLayer s0.layers L ⟨true, 1/2⟩ }
  match cfg.type with
  | some .scene =>
    -- background / fog / camera update ambient render-only config
    -- (excluded collaborators); gravity is forwarded:
    let s1 := match cfg.gravity with
      | some g => setGravityConfig s g
      | none => s
    (none, s1)
  | some .light =>
    match buildLight cfg s.nextKey with
    | some light => finishAdd s cfg light
    | none => (none, s)
  | some .helper =>
    match buildHelper cfg s.nextKey with
    | some helper => finishAdd s cfg helper
    | none => (none, s)
  | some .mesh => addMeshPath s cfg L
  | none => addMeshPath s cfg L
  | some .group => finishAdd s cfg (buildGroup cfg s.nextKey)
  | some (.unrecognized _) => (none, s)

/-! ### `replaceObject` (isocard.ts 486-692) -/

/-- Mesh branch of `replaceObject`: like `addMeshPath`, except that the
layer is *not* created, so layer opacity/visibility only apply when the
layer already exists. -/
def replaceMeshBuild (s : ICState) (cfg : Config) (L : String) : Option Obj3D :=
  match createGeometry cfg.shape with
  | none => none
  | some geom =>
    match createMaterialFromObj (defaultedMaterial cfg) with
    | none => none
    | some mat0 =>
      let mat :=
        match lookupLayer s.layers L with
        | some li =>
          if li.opacity < 1 then
            { mat0 with transparent := true, opacity := mat0.opacity * li.opacity }
          else mat0
        | none => mat0
      some
        { key := s.nextKey, isMesh := true,
          position := cfg.pos.getD ⟨0, 0, 0⟩,
          orient := orientOf cfg,
          scale := cfg.scale.getD ⟨1, 1, 1⟩,
          visible := cfg.enabled.getD true &&
            (match lookupLayer s.layers L with
             | some li => li.visible
             | none => true),
          geomShape := some geom,
          material := some mat }

/-- `replaceObject(id, newConfig)`: the old handle is removed from the
scene, disposed, and spliced out of the registry *before* the replacement
is constructed; every failure branch then reassembles the registry from
the two halves of the already-spliced array. -/
def replaceObject (s0 : ICState) (id : Option String) (newConfig0 : Config) : Bool × ICState :=
  match s0.objects.findIdx? (fun o => decide (o.id = id)) with
  | none => (false, s0)
  | some index =>
    match s0.objects[index]? with
    | none => (false, s0)  -- findIdx? only returns in-range indices
    | some oldObj =>
      -- `this.scene.remove(oldObj.threeObj)` + geometry/material dispose
      let s1 := { s0 with sceneKeys := s0.sceneKeys.erase oldObj.threeObj }
      let s2 :=
        match lookupHeap s1.heap oldObj.threeObj with
        | some o =>
          if o.geomShape.isSome || o.material.isSome then
            { s1 with disposedKeys := s1.disposedKeys ++ [oldObj.threeObj] }
          else s1
        | none => s1
      -- `this.objects.splice(index, 1)`; `tempObjects = this.objects`;
      -- `this.objects = this.objects.slice(0, index)`
      let objsErased := s2.objects.eraseIdx index
      let prefixObjs := objsErased.take index
      let suffixObjs := objsErased.drop index
      let cfg := { newConfig0 with
        enabled := some (newConfig0.enabled.getD true),
        layer := some (jsStr newConfig0.layer "main") }
      let L := jsStr newConfig0.layer "main"
      let built : Option Obj3D :=
        match cfg.type with
        | some .light => buildLight cfg s2.nextKey
        | some .helper => buildHelper cfg s2.nextKey
        | some .mesh => replaceMeshBuild s2 cfg L
        | none => replaceMeshBuild s2 cfg L
        | some .group => some (buildGroup cfg s2.nextKey)
        | some .scene => none
        | some (.unrecognized _) => none
      match built with
      | none =>
        -- `this.objects = [...this.objects, ...tempObjects.slice(index)]`
        (false, { s2 with objects := prefixObjs ++ suffixObjs })
      | some obj0 =>
        let obj := { obj0 with userLayer := cfg.layer, userEnabled := cfg.enabled }
        let newCfg := if cfg.name.isSome then cfg
          else { cfg with name := some (autoName cfg id) }
        (true, { s2 with
          objects := (prefixObjs ++ [⟨id, obj.key, newCfg⟩]) ++ suffixObjs,
          heap := s2.heap ++ [(obj.key, obj)],
          sceneKeys := s2.sceneKeys ++ [obj.key],
          nextKey := s2.nextKey + 1 })

/-! ### `updateObject` (isocard.ts 694-788) -/

/-- `Object.assign(item.config, updates)`: fields present in `updates`
overwrite the stored config. -/
def mergeConfig (c u : Config) : Config :=
  { type := u.type <|> c.type,
    name := u.name <|> c.name,
    pos := u.pos <|> c.pos,
    euler := u.euler <|> c.euler,
    rot := u.rot <|> c.rot,
    scale := u.scale <|> c.scale,
    layer := u.layer <|> c.layer,
    enabled := u.enabled <|> c.enabled,
    shape := u.shape <|> c.shape,
    material := u.material <|> c.material,
    color := u.color <|> c.color,
    physics := u.physics <|> c.physics,
    lightType := u.lightType <|> c.lightType,
    helperType := u.helperType <|> c.helperType,
    intensity := u.intensity <|> c.intensity,
    gravity := u.gravity <|> c.gravity }

def updateObject (s0 : ICState) (id : Option String) (updates : Config) : ICState :=
  match s0.objects.findIdx? (fun o => decide (o.id = id)) with
  | none => s0
  | some index =>
    match s0.objects[index]? with
    | none => s0
    | some item0 =>
      let cfg := mergeConfig item0.config updates
      let item := { item0 with config := cfg }
      let s := { s0 with objects := s0.objects.set index item }
      match lookupHeap s.heap item.threeObj with
      | none => s
      | some obj0 =>
        -- position / rotation / scale (each only when present in `updates`;
        -- after the assign, the merged config holds exactly the update value)
        let obj1 := match updates.pos with
          | some p => { obj0 with position := p }
          | none => obj0
        let obj2 :=
          match updates.euler with
          | some v => { obj1 with orient := .fromEulerDeg v }
          | none =>
            match updates.rot with
            | some r =>
              { obj1 with orient :=
                  if r.length = 4 then
                    .fromQuat ⟨r.getD 0 0, r.getD 1 0, r.getD 2 0, r.getD 3 0⟩
                  else
                    .fromEulerRad ⟨r.getD 0 0, r.getD 1 0, r.getD 2 0⟩ }
            | none => obj1
        let obj3 := match updates.scale with
          | some v => { obj2 with scale := v }
          | none => obj2
        -- layer change (`updates.layer !== undefined`)
        let layerStep : ICState × Obj3D :=
          match updates.layer with
          | some newL =>
            let layers1 := ensureLayer s.layers newL ⟨true, 1/2⟩
            let li := (lookupLayer layers1 newL).getD ⟨true, 1/2⟩
            let ob :=
              { obj3 with
                userLayer := some newL,
                visible := decide (cfg.enabled ≠ some false) && li.visible }
            let ob2 :=
              if ob.isMesh then
                match ob.material with
                | some m =>
                  let base := jsOrQ (cfg.material.bind (·.opacity)) 1
                  if li.opacity < 1 then
                    { ob with
                      material := some
                        { transparent := true, opacity := base * li.opacity } }
                  else
                    { ob with material := some { m with opacity := base } }
                | none => ob
              else ob
            ({ s with layers := layers1 }, ob2)
          | none => (s, obj3)
        let s2 := layerStep.1
        let obj4 := layerStep.2
        -- enabled change (`updates.enabled !== undefined`)
        let obj5 :=
          match updates.enabled with
          | some en =>
            let lay := jsStr cfg.layer "main"
            -- JS reads `this.layers[layer].visible` directly and would
            -- throw on a missing layer; `false` stands for that case
            let vis := ((lookupLayer s2.layers lay).map (·.visible)).getD false
            { obj4 with
              userEnabled := some en, visible := en && vis }
          | none => obj4
        -- `"shape" in updates` / `"material" in updates`
        let obj6 :=
          if updates.shape.isSome && obj5.isMesh then
            match createGeometry cfg.shape with
            | some g => { obj5 with geomShape := some g }
            | none => obj5
          else obj5
        let obj7 :=
          if updates.material.isSome && obj6.isMesh then
            match createMaterialFromObj (cfg.material.getD { type := some .phong }) with
            | some nm0 =>
              let lay := jsStr cfg.layer "main"
              let lo : ℚ := ((lookupLayer s2.layers lay).map (·.opacity)).getD 1
              let nm :=
                if lo < 1 then
                  { nm0 with transparent := true, opacity := nm0.opacity * lo }
                else nm0
              { obj6 with material := some nm }
            | none => obj6
          else obj6
        -- light color / intensity
        let obj8 :=
          if cfg.type = some ConfigType.light then
            let oa := if updates.color.isSome then { obj7 with lightColor := cfg.color } else obj7
            if updates.intensity.isSome then { oa with lightIntensity := cfg.intensity } else oa
          else obj7
        { s2 with heap := setHeap s2.heap item.threeObj obj8 }

/-! ### Layer operations used by the claims -/

/-- `updateLayerOpacity` body for one registry entry (the `forEach` at
isocard.ts 841-859). -/
def layerOpacityStep (layerId : String) (opacity : ℚ) (h : List (ℕ × Obj3D)) (e : Entry) :
    List (ℕ × Obj3D) :=
  if jsStr e.config.layer "main" = layerId then
    match lookupHeap h e.threeObj with
    | some o =>
      if o.isMesh then
        match o.material with
        | some m =>
          let baseMaterialOpacity := jsOrQ (e.config.material.bind (·.opacity)) 1
          let m1 :=
            if opacity < 1 then
              { m with transparent := true, opacity := baseMaterialOpacity * opacity }
            else
              { transparent := if baseMaterialOpacity = 1 then false else m.transparent,
                opacity := baseMaterialOpacity }
          setHeap h e.threeObj { o with material := some m1 }
        | none => h
      else h
    | none => h
  else h

/-- `updateLayerOpacity(layerId, opacity)` (isocard.ts 834-860). -/
def updateLayerOpacity (s : ICState) (layerId : String) (opacity : ℚ) : ICState :=
  let layers1 := ensureLayer s.layers layerId ⟨true, 1/2⟩
  let layers2 := setLayer layers1 layerId (fun li => { li with opacity := opacity })
  { s with
    layers := layers2,
    heap := s.objects.foldl (layerOpacityStep layerId opacity) s.heap }

/-- `addObjectsToLayer(layerId, configs)` (isocard.ts 2593-2612): missing
layers are created at opacity `1.0`; each config is added with the layer
forced; the returned id is then overwritten with the constant
`23098409234` before being pushed (a defect the spec flags in §9). -/
def addObjectsToLayer (s0 : ICState) (layerId : String) (configs : List Config) :
    List ℕ × ICState :=
  let s := { s0 with layers := ensureLayer s0.layers layerId ⟨true, 1⟩ }
  configs.foldl
    (fun acc config =>
      let st := (addObject acc.2 { config with layer := some layerId }).2
      (acc.1 ++ [23098409234], st))
    ([], s)

/-! ### Physics attach (`convertObjectToDynamic`, isocard.ts 2076-2305) -/

def appliedMotion (physicsConfig : PhysCfg) : MotionKind :=
  match physicsConfig.motionType with
  | some .static => .static
  | some .kinematic => .kinematic
  | _ => .dynamic

def maxO (a b : Option ℚ) : Option ℚ :=
  match a, b with
  | some x, some y => some (max x y)
  | _, _ => none

def halfO (a : Option ℚ) : Option ℚ := a.map (· / 2)

/-- The Jolt-shape `switch` shared by the conversion paths: box, sphere,
plane (thin box), cylinder (box approximation when tapered), cone (box),
torus (cylinder), capsule; anything else (and an absent shape config)
falls back to the world bounding box of the mesh. -/
def joltShapeFor (scaledShape : Option ShapeCfg) (mesh : Obj3D) : JoltShape :=
  match scaledShape with
  | some sh =>
    match sh.type with
    | some .box => .box (halfO sh.width) (halfO sh.height) (halfO sh.depth)
    | some .sphere => .sphere sh.radius
    | some .plane => .box (halfO sh.width) (some (1/100)) (halfO sh.height)
    | some .cylinder =>
      if sh.radiusTop = sh.radiusBottom then
        .cylinder (halfO sh.height) sh.radiusTop
      else
        .box (maxO sh.radiusTop sh.radiusBottom) (halfO sh.height)
          (maxO sh.radiusTop sh.radiusBottom)
    | some .cone => .box sh.radius (halfO sh.height) sh.radius
    | some .torus => .cylinder sh.tube sh.radius
    | some .capsule => .capsule (halfO sh.height) sh.radius
    | _ => .box (some (mesh.bbSize.x / 2)) (some (mesh.bbSize.y / 2)) (some (mesh.bbSize.z / 2))
  | none => .box (some (mesh.bbSize.x / 2)) (some (mesh.bbSize.y / 2)) (some (mesh.bbSize.z / 2))

/-- `convertObjectToDynamic(id, physicsConfig)`: fail fast when physics is
uninitialized or the object is missing / not a mesh; release any existing
body; derive the scaled shape; map the motion type; choose the collision
layer (`motionType === Static ? LAYER_NON_MOVING : LAYER_MOVING`); create
the body at the mesh's current transform; record the config; and maintain
`dynamicObjects` membership. -/
def convertObjectToDynamic (s : ICState) (id : Option String) (physicsConfig : PhysCfg) :
    Bool × ICState :=
  if s.physInit = false then (false, s)
  else
    match s.objects.findIdx? (fun o => decide (o.id = id)) with
    | none => (false, s)
    | some index =>
      match s.objects[index]? with
      | none => (false, s)
      | some item =>
        match lookupHeap s.heap item.threeObj with
        | none => (false, s)
        | some mesh0 =>
          if mesh0.isMesh = false then (false, s)
          else
            -- remove + destroy any existing body, clear the userData flags
            let mesh1 := { mesh0 with body := none }
            let scaled := getScaledShapeDimensions item.config mesh1
            let jShape := joltShapeFor scaled mesh1
            let motionType := appliedMotion physicsConfig
            let layer := if motionType = .static then LAYER_NON_MOVING else LAYER_MOVING
            let body : Body :=
              { pos := mesh1.position, rot := mesh1.orient,
                motion := motionType, objLayer := layer, shape := jShape,
                massOverride :=
                  if physicsConfig.mass.isSome && decide (motionType = MotionKind.dynamic) then physicsConfig.mass
                  else none,
                friction := physicsConfig.friction,
                restitution := physicsConfig.restitution }
            let mesh2 := { mesh1 with body := some body }
            let s1 := { s with heap := setHeap s.heap item.threeObj mesh2 }
            let s2 :=
              { s1 with
                objects := s1.objects.set index
                  { item with config := { item.config with physics := some physicsConfig } } }
            let s3 :=
              if motionType = .dynamic then
                if item.threeObj ∈ s2.dynamicKeys then s2
                else { s2 with dynamicKeys := s2.dynamicKeys ++ [item.threeObj] }
              else
                { s2 with dynamicKeys := s2.dynamicKeys.erase item.threeObj }
            (true, s3)

/-! ### Transform snapshots and the simulation switch
(isocard.ts 2337-2387, 2421-2449) -/

def snapOf (o : Obj3D) : Snapshot := ⟨o.position, o.orient, o.scale⟩

/-- JS `Map.set`: replace in place when the key exists, else append. -/
def mapSet (m : List (Option String × Snapshot)) (k : Option String) (v : Snapshot) :
    List (Option String × Snapshot) :=
  if m.any (fun p => decide (p.1 = k)) then
    m.map (fun p => if p.1 = k then (k, v) else p)
  else m ++ [(k, v)]

/-- One iteration of the `saveObjectTransforms` loop: snapshot every
mesh/group's position, quaternion and scale under its id. -/
def saveStep (s : ICState) (acc : List (Option String × Snapshot)) (e : Entry) :
    List (Option String × Snapshot) :=
  match lookupHeap s.heap e.threeObj with
  | none => acc
  | some o => if o.isMesh || o.isGroup then mapSet acc e.id (snapOf o) else acc

def saveObjectTransforms (s : ICState) : ICState :=
  { s with savedTransforms := s.objects.foldl (saveStep s) [] }

/-- `SetPositionAndRotation` to the snapshot plus zeroed velocities. -/
def resetBody (tr : Snapshot) (b : Body) : Body :=
  { b with pos := tr.position, rot := tr.orient, linVel := ⟨0, 0, 0⟩, angVel := ⟨0, 0, 0⟩ }

/-- One iteration of the `restoreObjectTransforms` loop: copy the snapshot
back to the handle and, when the object still has a body (and the body
interface exists), reset the body's position/rotation and zero its
velocities. -/
def restoreOne (s : ICState) (p : Option String × Snapshot) : ICState :=
  match s.objects.find? (fun e => decide (e.id = p.1)) with
  | none => s
  | some e =>
    match lookupHeap s.heap e.threeObj with
    | none => s
    | some o =>
      let o1 := { o with position := p.2.position, orient := p.2.orient, scale := p.2.scale }
      let o2 :=
        match o.body with
        | some b => if s.physInit then { o1 with body := some (resetBody p.2 b) } else o1
        | none => o1
      { s with heap := setHeap s.heap e.threeObj o2 }

def restoreObjectTransforms (s : ICState) : ICState :=
  s.savedTransforms.foldl restoreOne s

/-- `startPhysics()`: guard on initialization, snapshot, set Running. -/
def startPhysics (s : ICState) : Bool × ICState :=
  if s.physInit then
    let s1 := saveObjectTransforms s
    (true, { s1 with isPhysicsRunning := true, lastActionTime := 0 })
  else (false, s)

/-- `stopPhysics()`: guard, clear Running, restore all snapshots. -/
def stopPhysics (s : ICState) : Bool × ICState :=
  if s.physInit then
    (true, restoreObjectTransforms { s with isPhysicsRunning := false })
  else (false, s)

/-! ## General lemmas about the helpers -/

theorem jsOrQ_ne_zero (o : Option ℚ) (d : ℚ) (hd : d ≠ 0) : jsOrQ o d ≠ 0 := by
  cases o with
  | none => simpa [jsOrQ] using hd
  | some v =>
    by_cases hv : v = 0
    · simpa [jsOrQ, hv] using hd
    · simpa [jsOrQ, hv] using hv

theorem jsOrQ_some_self (o : Option ℚ) (d d' : ℚ) (hd : d ≠ 0) :
    jsOrQ (some (jsOrQ o d)) d' = jsOrQ o d := by
  have h := jsOrQ_ne_zero o d hd
  rw [show jsOrQ (some (jsOrQ o d)) d' = if jsOrQ o d = 0 then d' else jsOrQ o d from rfl,
    if_neg h]

theorem lookupHeap_cons (p : ℕ × Obj3D) (t : List (ℕ × Obj3D)) (k : ℕ) :
    lookupHeap (p :: t) k = if p.1 = k then some p.2 else lookupHeap t k := by
  by_cases hp : p.1 = k <;> simp [lookupHeap, List.find?_cons, hp]

theorem setHeap_cons (p : ℕ × Obj3D) (t : List (ℕ × Obj3D)) (k : ℕ) (o : Obj3D) :
    setHeap (p :: t) k o = (if p.1 = k then (k, o) else p) :: setHeap t k o := by
  by_cases hp : p.1 = k <;> simp [setHeap, hp]

theorem lookupHeap_setHeap_self (h : List (ℕ × Obj3D)) (k : ℕ) (o o0 : Obj3D)
    (hk : lookupHeap h k = some o0) : lookupHeap (setHeap h k o) k = some o := by
  induction h with
  | nil => simp [lookupHeap] at hk
  | cons p t ih =>
    rw [setHeap_cons]
    by_cases hp : p.1 = k
    · rw [if_pos hp, lookupHeap_cons, if_pos rfl]
    · rw [if_neg hp, lookupHeap_cons, if_neg hp]
      rw [lookupHeap_cons, if_neg hp] at hk
      exact ih hk

theorem lookupHeap_setHeap_ne (h : List (ℕ × Obj3D)) (k k' : ℕ) (o : Obj3D)
    (hne : k' ≠ k) : lookupHeap (setHeap h k o) k' = lookupHeap h k' := by
  induction h with
  | nil => simp [lookupHeap, setHeap]
  | cons p t ih =>
    rw [setHeap_cons, lookupHeap_cons, lookupHeap_cons]
    by_cases hp : p.1 = k
    · rw [if_pos hp]
      rw [if_neg (by simpa using (hne ∘ Eq.symm)), if_neg (fun hh => hne (hp ▸ hh).symm)]
      exact ih
    · rw [if_neg hp]
      by_cases hp' : p.1 = k'
      · rw [if_pos hp', if_pos hp']
      · rw [if_neg hp', if_neg hp']
        exact ih

theorem lookupHeap_setHeap_none (h : List (ℕ × Obj3D)) (k : ℕ) (o : Obj3D)
    (hk : lookupHeap h k = none) : lookupHeap (setHeap h k o) k = none := by
  induction h with
  | nil => simp [lookupHeap, setHeap]
  | cons p t ih =>
    rw [lookupHeap_cons] at hk
    by_cases hp : p.1 = k
    · rw [if_pos hp] at hk
      exact absurd hk (by simp)
    · rw [if_neg hp] at hk
      rw [setHeap_cons, if_neg hp, lookupHeap_cons, if_neg hp]
      exact ih hk

/-! ## C5 — delta clamping and sub-step selection -/

/-- C5: on every simulation tick the effective delta time is the elapsed
time clamped to at most 1/30 s (`clampDelta`), and the engine is stepped
with 2 sub-steps exactly when the clamped delta exceeds 1/55 s
(`numSteps`); in particular 0.01 s yields 1 sub-step and 0.05 s yields 2. -/
theorem tick_clamp_substeps (elapsed : ℚ) :
    clampDelta elapsed ≤ 1/30 ∧
    clampDelta elapsed ≤ elapsed ∧
    (elapsed ≤ 1/30 → clampDelta elapsed = elapsed) ∧
    (numSteps (clampDelta elapsed) = 2 ↔ 1/55 < clampDelta elapsed) ∧
    numSteps (clampDelta (1/100)) = 1 ∧
    numSteps (clampDelta (1/20)) = 2 := by
  refine ⟨min_le_right _ _, min_le_left _ _, fun h => min_eq_left h, ?_,
    by norm_num [clampDelta, numSteps], by norm_num [clampDelta, numSteps]⟩
  unfold numSteps
  split_ifs with h
  · simpa using h
  · simp only [gt_iff_lt, not_lt] at h
    constructor
    · intro h1; exact absurd h1 (by norm_num)
    · intro h1; exact absurd h1 (not_lt.mpr h)

/-- C5 witness: concrete sub-step counts at 0.01 s and 0.05 s. -/
theorem tick_clamp_substeps_witness :
    (1/100 : ℚ) ≤ 1/30 ∧ clampDelta (1/100) = 1/100 ∧
    numSteps (clampDelta (1/100)) = 1 ∧ numSteps (clampDelta (1/20)) = 2 := by
  have h := tick_clamp_substeps (1/100)
  have h2 := tick_clamp_substeps (1/20)
  exact ⟨by norm_num, h.2.2.1 (by norm_num), h.2.2.2.2.1, h2.2.2.2.2.2⟩

/-! ## C4 — radial gravity per-body guard and force -/

/-- The C4 claim, stated literally at one input: no force strictly below
the epsilon, zero-inverse-mass bodies exempt, *otherwise* a force is
applied. -/
def radialClaimAt (strength : ℚ) (center pos : V3) (invMass : ℚ) : Prop :=
  (lengthSq (subV pos center) < 1/10000 →
    radialTickForce strength center pos invMass = .noForce) ∧
  (invMass = 0 → radialTickForce strength center pos invMass = .noForce) ∧
  (¬ lengthSq (subV pos center) < 1/10000 → invMass ≠ 0 →
    radialTickForce strength center pos invMass ≠ .noForce)

/-- C4 counterexample: at squared distance exactly 0.0001 (the epsilon)
and inverse mass 1 the code applies no force, although the claim's
"otherwise a force … is applied" clause demands one (the guard is
`distSq > 0.0001`, so the boundary is skipped as well). -/
theorem radial_epsilon_boundary_cex :
    lengthSq (subV ⟨1/100, 0, 0⟩ ⟨0, 0, 0⟩) = 1/10000 ∧
    radialTickForce 1000 ⟨0, 0, 0⟩ ⟨1/100, 0, 0⟩ 1 = .noForce ∧
    ¬ radialClaimAt 1000 ⟨0, 0, 0⟩ ⟨1/100, 0, 0⟩ 1 := by
  refine ⟨by norm_num [lengthSq, subV], by norm_num [radialTickForce, lengthSq, subV], ?_⟩
  intro hcl
  have := hcl.2.2 (by norm_num [lengthSq, subV]) (by norm_num)
  exact this (by norm_num [radialTickForce, lengthSq, subV])

/-- C4 (amended): per body per tick, no force is applied when the squared
distance to the attractor center is *at or below* the epsilon 0.0001
(hence the inverse-square division never divides by a value ≤ 0.0001,
producing no NaN/Infinity force); bodies with non-positive engine-reported
inverse mass are exempt; when the squared distance strictly exceeds the
epsilon and the inverse mass is positive, the applied force is
`coeff • unit(pos − center)` with `coeff = -(strength/distSq · mass)`
(mass `= 1/invMass`) — i.e. magnitude `(strength/distSq) · mass`, directed
from the body toward the center whenever the strength is positive. -/
theorem radial_force_spec (strength : ℚ) (center pos : V3) (invMass : ℚ) :
    (lengthSq (subV pos center) ≤ 1/10000 →
      radialTickForce strength center pos invMass = .noForce) ∧
    (invMass ≤ 0 → radialTickForce strength center pos invMass = .noForce) ∧
    (1/10000 < lengthSq (subV pos center) → 0 < invMass →
      radialTickForce strength center pos invMass =
        .applied (-(strength / lengthSq (subV pos center) * (1 / invMass)))
          (subV pos center)) ∧
    (∀ c d, radialTickForce strength center pos invMass = .applied c d →
      d = subV pos center ∧ (0 < strength → c < 0)) := by
  refine ⟨?_, ?_, ?_, ?_⟩
  · intro h
    simp only [radialTickForce]
    rw [if_neg (by simpa using not_lt.mpr h)]
  · intro h
    simp only [radialTickForce]
    split_ifs with h1 h2 h3 h4
    · exact absurd h2 (not_lt.mpr h)
    all_goals simp_all
  · intro h1 h2
    have hm : (0:ℚ) < 1 / invMass := by positivity
    simp only [radialTickForce]
    rw [if_pos (show lengthSq (subV pos center) > 1/10000 from h1), if_pos h2, if_pos hm]
  · intro c d hcd
    simp only [radialTickForce] at hcd
    split_ifs at hcd with h1 h2 h3 h4
    · rw [TickForce.applied.injEq] at hcd
      refine ⟨hcd.2.symm, fun hs => ?_⟩
      rw [← hcd.1]
      have hd : (0:ℚ) < lengthSq (subV pos center) := lt_trans (by norm_num) h1
      have : 0 < strength / lengthSq (subV pos center) * (1 / invMass) :=
        mul_pos (div_pos hs hd) h3
      linarith
    all_goals simp_all

/-- C4 (amended) witness: a body at distance 1 with inverse mass 1/2 gets
the inverse-square force; a body inside the epsilon ball gets none. -/
theorem radial_force_spec_witness :
    radialTickForce 1000 ⟨0, 0, 0⟩ ⟨1, 0, 0⟩ (1/2) =
      .applied (-(1000 / lengthSq (subV ⟨1, 0, 0⟩ ⟨0, 0, 0⟩) * (1 / (1/2))))
        (subV ⟨1, 0, 0⟩ ⟨0, 0, 0⟩) ∧
    radialTickForce 1000 ⟨0, 0, 0⟩ ⟨1/200, 0, 0⟩ 1 = .noForce := by
  have h := radial_force_spec 1000 ⟨0, 0, 0⟩ ⟨1, 0, 0⟩ (1/2)
  have h2 := radial_force_spec 1000 ⟨0, 0, 0⟩ ⟨1/200, 0, 0⟩ 1
  exact ⟨h.2.2.1 (by norm_num [lengthSq, subV]) (by norm_num),
    h2.1 (by norm_num [lengthSq, subV])⟩

/-! ## C6 — scaled-shape identity at unit scale -/

/-- C6: for every shape descriptor of a recognized type (box, sphere,
plane, cylinder, cone, torus), `getScaledShapeDimensions` at scale
(1,1,1) preserves the shape type and every effective dimension (each
dimension read the way all consumers read it, `field || default`). -/
theorem scaledShape_unit_identity
    (config : Config) (mesh : Obj3D) (sh : ShapeCfg)
    (hscale : mesh.scale = ⟨1, 1, 1⟩)
    (hsh : config.shape = some sh)
    (hrec : sh.type = some ShapeType.box ∨ sh.type = some ShapeType.sphere ∨
            sh.type = some ShapeType.plane ∨ sh.type = some ShapeType.cylinder ∨
            sh.type = some ShapeType.cone ∨ sh.type = some ShapeType.torus) :
    ∃ sc, getScaledShapeDimensions config mesh = some sc ∧
      sc.type = sh.type ∧
      effWidth sc = effWidth sh ∧ effHeight sc = effHeight sh ∧
      effDepth sc = effDepth sh ∧ effRadius sc = effRadius sh ∧
      effRadiusTop sc = effRadiusTop sh ∧ effRadiusBottom sc = effRadiusBottom sh ∧
      effTube sc = effTube sh := by
  have h1 : (1:ℚ) ≠ 0 := one_ne_zero
  have h25 : (2/5 : ℚ) ≠ 0 := by norm_num
  rcases hrec with ht | ht | ht | ht | ht | ht
  · exact ⟨{ sh with
        width := some (jsOrQ sh.width 1),
        height := some (jsOrQ sh.height 1),
        depth := some (jsOrQ sh.depth 1) },
      by simp [getScaledShapeDimensions, hsh, ht, hscale, qmax3],
      by simp [effWidth, effHeight, effDepth, effRadius, effRadiusTop, effRadiusBottom,
        effTube, jsOrQ_some_self _ _ _ h1, jsOrQ_some_self _ _ _ h25]⟩
  · exact ⟨{ sh with radius := some (jsOrQ sh.radius 1) },
      by simp [getScaledShapeDimensions, hsh, ht, hscale, qmax3],
      by simp [effWidth, effHeight, effDepth, effRadius, effRadiusTop, effRadiusBottom,
        effTube, jsOrQ_some_self _ _ _ h1, jsOrQ_some_self _ _ _ h25]⟩
  · exact ⟨{ sh with
        width := some (jsOrQ sh.width 1),
        height := some (jsOrQ sh.height 1) },
      by simp [getScaledShapeDimensions, hsh, ht, hscale, qmax3],
      by simp [effWidth, effHeight, effDepth, effRadius, effRadiusTop, effRadiusBottom,
        effTube, jsOrQ_some_self _ _ _ h1, jsOrQ_some_self _ _ _ h25]⟩
  · exact ⟨{ sh with
        radiusTop := some (jsOrQ sh.radiusTop 1),
        radiusBottom := some (jsOrQ sh.radiusBottom 1),
        height := some (jsOrQ sh.height 1) },
      by simp [getScaledShapeDimensions, hsh, ht, hscale, qmax3],
      by simp [effWidth, effHeight, effDepth, effRadius, effRadiusTop, effRadiusBottom,
        effTube, jsOrQ_some_self _ _ _ h1, jsOrQ_some_self _ _ _ h25]⟩
  · exact ⟨{ sh with
        radius := some (jsOrQ sh.radius 1),
        height := some (jsOrQ sh.height 1) },
      by simp [getScaledShapeDimensions, hsh, ht, hscale, qmax3],
      by simp [effWidth, effHeight, effDepth, effRadius, effRadiusTop, effRadiusBottom,
        effTube, jsOrQ_some_self _ _ _ h1, jsOrQ_some_self _ _ _ h25]⟩
  · exact ⟨{ sh with
        radius := some (jsOrQ sh.radius 1),
        tube := some (jsOrQ sh.tube (2/5)) },
      by simp [getScaledShapeDimensions, hsh, ht, hscale, qmax3],
      by simp [effWidth, effHeight, effDepth, effRadius, effRadiusTop, effRadiusBottom,
        effTube, jsOrQ_some_self _ _ _ h1, jsOrQ_some_self _ _ _ h25]⟩

/-- C6 witness: a concrete box at unit scale keeps its dimensions. -/
def shW : ShapeCfg := { type := some .box, width := some 2, height := some 3 }
def cfgW : Config := { shape := some shW }
def meshW : Obj3D := { key := 0, isMesh := true }

theorem scaledShape_unit_identity_witness :
    ∃ sc, getScaledShapeDimensions cfgW meshW = some sc ∧
      sc.type = shW.type ∧
      effWidth sc = effWidth shW ∧ effHeight sc = effHeight shW ∧
      effDepth sc = effDepth shW ∧ effRadius sc = effRadius shW ∧
      effRadiusTop sc = effRadiusTop shW ∧ effRadiusBottom sc = effRadiusBottom shW ∧
      effTube sc = effTube shW :=
  scaledShape_unit_identity cfgW meshW shW rfl rfl (Or.inl rfl)

end IsoCard

namespace IsoCard

/-! ## `convertObjectToDynamic` — successful-attach unfolding -/

/-- The body `convertObjectToDynamic` creates for a mesh (its fields as
assembled around isocard.ts 2219-2266). -/
def convertedBody (cfg : Config) (pc : PhysCfg) (mesh1 : Obj3D) : Body :=
  { pos := mesh1.position, rot := mesh1.orient,
    motion := appliedMotion pc,
    objLayer := if appliedMotion pc = .static then LAYER_NON_MOVING else LAYER_MOVING,
    shape := joltShapeFor (getScaledShapeDimensions cfg mesh1) mesh1,
    massOverride :=
      if pc.mass.isSome && decide (appliedMotion pc = MotionKind.dynamic) then pc.mass
      else none,
    friction := pc.friction,
    restitution := pc.restitution }

/-- Unfolding lemma: a successful `convertObjectToDynamic` call updates
the heap at the object's handle, records the physics config, and updates
`dynamicObjects` membership. -/
theorem convert_success_unfold
    (s : ICState) (id : Option String) (pc : PhysCfg)
    (index : ℕ) (item : Entry) (mesh0 : Obj3D)
    (hinit : s.physInit = true)
    (hidx : s.objects.findIdx? (fun o => decide (o.id = id)) = some index)
    (hitem : s.objects[index]? = some item)
    (hmesh : lookupHeap s.heap item.threeObj = some mesh0)
    (hIsMesh : mesh0.isMesh = true) :
    convertObjectToDynamic s id pc =
      (true,
       { s with
         heap := setHeap s.heap item.threeObj
           { mesh0 with body := some (convertedBody item.config pc { mesh0 with body := none }) },
         objects := s.objects.set index
           { item with config := { item.config with physics := some pc } },
         dynamicKeys :=
           if appliedMotion pc = .dynamic then
             (if item.threeObj ∈ s.dynamicKeys then s.dynamicKeys
              else s.dynamicKeys ++ [item.threeObj])
           else s.dynamicKeys.erase item.threeObj }) := by
  simp only [convertObjectToDynamic, hinit, hidx, hitem, hmesh, hIsMesh,
    Bool.true_eq_false, if_false, convertedBody]
  split_ifs <;> rfl

/-! ## C2 — collision layer from motion type (corrected) -/

/-- Concrete registry with a single mesh `"k"`, physics initialized. -/
def meshC2 : Obj3D := { key := 0, isMesh := true }
def cfgC2 : Config :=
  { type := some .mesh, name := some "k", shape := some { type := some ShapeType.box } }
def stateC2 : ICState :=
  { physInit := true, objects := [⟨some "k", 0, cfgC2⟩], heap := [(0, meshC2)], nextKey := 1 }

/-- C2 counterexample: attaching with `motionType: "kinematic"` succeeds
and puts the body on `LAYER_MOVING`, not on the non-moving layer the claim
asserts (the source maps only `Static` to `LAYER_NON_MOVING`). -/
theorem convert_kinematic_layer_cex :
    (convertObjectToDynamic stateC2 (some "k") { motionType := some MotionKind.kinematic }).1
      = true ∧
    ((lookupHeap (convertObjectToDynamic stateC2 (some "k")
        { motionType := some MotionKind.kinematic }).2.heap 0).bind (·.body)).map (·.objLayer)
      = some LAYER_MOVING ∧
    LAYER_MOVING ≠ LAYER_NON_MOVING := by
  decide

/-- C2 (amended): the collision layer of the body created by a successful
`convertObjectToDynamic` is determined solely by the applied motion type:
static bodies go on the non-moving layer, dynamic *and kinematic* bodies
on the moving layer. -/
theorem convert_layer_solely_from_motion
    (s : ICState) (id : Option String) (pc : PhysCfg)
    (index : ℕ) (item : Entry) (mesh0 : Obj3D)
    (hinit : s.physInit = true)
    (hidx : s.objects.findIdx? (fun o => decide (o.id = id)) = some index)
    (hitem : s.objects[index]? = some item)
    (hmesh : lookupHeap s.heap item.threeObj = some mesh0)
    (hIsMesh : mesh0.isMesh = true) :
    ∃ o b,
      lookupHeap (convertObjectToDynamic s id pc).2.heap item.threeObj = some o ∧
      o.body = some b ∧
      b.objLayer = (if appliedMotion pc = MotionKind.static then LAYER_NON_MOVING
        else LAYER_MOVING) := by
  rw [convert_success_unfold s id pc index item mesh0 hinit hidx hitem hmesh hIsMesh]
  exact ⟨_, _, lookupHeap_setHeap_self _ _ _ _ hmesh, rfl, rfl⟩

/-- C2 (amended) witness: the concrete static attach lands on the
non-moving layer. -/
theorem convert_layer_solely_from_motion_witness :
    ∃ o b,
      lookupHeap (convertObjectToDynamic stateC2 (some "k")
        { motionType := some MotionKind.static }).2.heap
        (Entry.threeObj ⟨some "k", 0, cfgC2⟩) = some o ∧
      o.body = some b ∧
      b.objLayer = (if appliedMotion { motionType := some MotionKind.static } = MotionKind.static
        then LAYER_NON_MOVING else LAYER_MOVING) :=
  convert_layer_solely_from_motion stateC2 (some "k") _ 0 ⟨some "k", 0, cfgC2⟩ meshC2
    rfl (by decide) (by decide) (by decide) rfl

/-! ## C7 — DynamicSet membership iff dynamic -/

/-- C7: after a successful `convertObjectToDynamic`, the object's handle is
in `dynamicObjects` iff the applied motion type is dynamic (static or
kinematic attaches remove it; dynamic attaches insert it), and — given the
list was duplicate-free, its standing invariant — it stays duplicate-free
(no duplicate insertion). -/
theorem convert_dynamicSet_iff
    (s : ICState) (id : Option String) (pc : PhysCfg)
    (index : ℕ) (item : Entry) (mesh0 : Obj3D)
    (hinit : s.physInit = true)
    (hidx : s.objects.findIdx? (fun o => decide (o.id = id)) = some index)
    (hitem : s.objects[index]? = some item)
    (hmesh : lookupHeap s.heap item.threeObj = some mesh0)
    (hIsMesh : mesh0.isMesh = true)
    (hnd : s.dynamicKeys.Nodup) :
    ((item.threeObj ∈ (convertObjectToDynamic s id pc).2.dynamicKeys) ↔
      appliedMotion pc = MotionKind.dynamic) ∧
    (convertObjectToDynamic s id pc).2.dynamicKeys.Nodup := by
  rw [convert_success_unfold s id pc index item mesh0 hinit hidx hitem hmesh hIsMesh]
  by_cases hd : appliedMotion pc = MotionKind.dynamic
  · by_cases hm : item.threeObj ∈ s.dynamicKeys
    · constructor
      · simp [hd, hm]
      · simpa [hd, hm] using hnd
    · constructor
      · simp [hd, hm]
      · simp [hd, hm, List.nodup_append, hnd]
  · constructor
    · simp only [if_neg hd]
      constructor
      · intro hmem
        exact absurd ((hnd.mem_erase_iff).mp hmem).1 (by simp)
      · intro hcontra
        exact absurd hcontra hd
    · simp only [if_neg hd]
      exact hnd.erase _

/-- C7 witness: the concrete dynamic attach puts handle 0 in the set. -/
theorem convert_dynamicSet_iff_witness :
    ((Entry.threeObj ⟨some "k", 0, cfgC2⟩ ∈ (convertObjectToDynamic stateC2 (some "k")
        { motionType := some MotionKind.dynamic }).2.dynamicKeys) ↔
      appliedMotion { motionType := some MotionKind.dynamic } = MotionKind.dynamic) ∧
    (convertObjectToDynamic stateC2 (some "k")
      { motionType := some MotionKind.dynamic }).2.dynamicKeys.Nodup :=
  convert_dynamicSet_iff stateC2 (some "k") _ 0 ⟨some "k", 0, cfgC2⟩ meshC2
    rfl (by decide) (by decide) (by decide) rfl (by decide)

/-! ## C1 — replace-failure atomicity (code bug) -/

def cfgC1 : Config :=
  { type := some .mesh, name := some "a", shape := some { type := some ShapeType.box },
    material := some { type := some .phong, opacity := some 1 } }
def meshC1 : Obj3D :=
  { key := 0, isMesh := true, geomShape := some { type := some ShapeType.box },
    material := some { transparent := false, opacity := 1 },
    userLayer := some "main", userEnabled := some true }
def stateC1 : ICState :=
  { layers := [("main", ⟨true, 1⟩)], objects := [⟨some "a", 0, cfgC1⟩],
    heap := [(0, meshC1)], sceneKeys := [0], nextKey := 1 }

/-- C1 (code bug): `replaceObject` with an unsupported replacement type
returns `false`, but the registry's visible state is *not* unchanged —
the original entry has been spliced out for good, its handle removed from
the scene and disposed, contradicting the atomicity the spec requires
(the `// If failed, restore the objects array` branch reassembles the
array without the removed entry). -/
theorem replace_failure_discards_original :
    stateC1.objects = [⟨some "a", 0, cfgC1⟩] ∧
    0 ∈ stateC1.sceneKeys ∧ 0 ∉ stateC1.disposedKeys ∧
    (replaceObject stateC1 (some "a") { type := some (ConfigType.unrecognized "bogus") }).1
      = false ∧
    (replaceObject stateC1 (some "a")
      { type := some (ConfigType.unrecognized "bogus") }).2.objects = [] ∧
    0 ∉ (replaceObject stateC1 (some "a")
      { type := some (ConfigType.unrecognized "bogus") }).2.sceneKeys ∧
    0 ∈ (replaceObject stateC1 (some "a")
      { type := some (ConfigType.unrecognized "bogus") }).2.disposedKeys := by
  decide

/-! ## C9 — attractor center never reaches the gravity model (code bug) -/

def ballBody : Body :=
  { pos := ⟨5, 3, 0⟩, rot := .identity, motion := .dynamic, objLayer := LAYER_MOVING,
    shape := .sphere (some 1) }
def ballMesh : Obj3D := { key := 7, isMesh := true, body := some ballBody }
def ballCfg : Config :=
  { type := some .mesh, name := some "ball", shape := some { type := some ShapeType.sphere } }
def planetCfg : Config :=
  { type := some .mesh, name := some "planet", pos := some ⟨5, 0, 0⟩,
    shape := some { type := some ShapeType.sphere, radius := some 2 },
    physics := some { motionType := some MotionKind.static, gravityStrength := some 1000 } }
def stateC9 : ICState :=
  { layers := [("main", ⟨true, 1⟩)], objects := [⟨some "ball", 7, ballCfg⟩],
    heap := [(7, ballMesh)], sceneKeys := [7], dynamicKeys := [7],
    physInit := true, gravityType := .radial, gravityStrength := 1000, nextKey := 8 }

/-- C9 (code bug): adding a static sphere at (5,0,0) with
`physics.gravityStrength` pushes `(position, strength)` onto the
`attractors` list — which no code ever reads — and never assigns
`gravityCenter`, so the radial tick keeps attracting toward the origin
`(0,0,0)` instead of the sphere's world position (the source comment
"gravityCenter will be set when adding the planet" notwithstanding). -/
theorem attractor_center_not_used :
    (addObject stateC9 planetCfg).2.attractors = [(⟨5, 0, 0⟩, 1000)] ∧
    (addObject stateC9 planetCfg).2.gravityCenter = ⟨0, 0, 0⟩ ∧
    ((⟨0, 0, 0⟩ : V3) ≠ ⟨5, 0, 0⟩) ∧
    applyRadialGravity (addObject stateC9 planetCfg).2 (fun _ => 1) =
      [(7, radialTickForce 1000 ⟨0, 0, 0⟩ ⟨5, 3, 0⟩ 1)] ∧
    radialTickForce 1000 ⟨0, 0, 0⟩ ⟨5, 3, 0⟩ 1 ≠ radialTickForce 1000 ⟨5, 0, 0⟩ ⟨5, 3, 0⟩ 1 := by
  refine ⟨by decide, by decide, by decide, rfl, ?_⟩
  simp only [radialTickForce, lengthSq, subV]
  norm_num


/-! ## C8 — layer opacity recomputation -/

/-- The material value `updateLayerOpacity` installs on a member mesh,
as a function of the base config opacity, the new layer opacity and the
previous material state. -/
def recomputedMat (base lam : ℚ) (m : MaterialState) : MaterialState :=
  if lam < 1 then { transparent := true, opacity := base * lam }
  else { transparent := if base = 1 then false else m.transparent, opacity := base }

theorem layerOpacityStep_ne (L : String) (lam : ℚ) (h : List (ℕ × Obj3D)) (e : Entry) (k : ℕ)
    (hk : e.threeObj ≠ k) :
    lookupHeap (layerOpacityStep L lam h e) k = lookupHeap h k := by
  unfold layerOpacityStep
  by_cases hL : jsStr e.config.layer "main" = L
  · rw [if_pos hL]
    cases hlook : lookupHeap h e.threeObj with
    | none => rfl
    | some o =>
      by_cases hm : o.isMesh
      · cases hmat : o.material with
        | none => simp [hm, hmat]
        | some m => simp [hm, hmat, lookupHeap_setHeap_ne _ _ _ _ (Ne.symm hk)]
      · simp [hm]
  · rw [if_neg hL]

theorem foldl_layerOpacityStep_ne (L : String) (lam : ℚ) (l : List Entry)
    (h : List (ℕ × Obj3D)) (k : ℕ) (hk : ∀ e ∈ l, e.threeObj ≠ k) :
    lookupHeap (l.foldl (layerOpacityStep L lam) h) k = lookupHeap h k := by
  induction l generalizing h with
  | nil => rfl
  | cons a t ih =>
    rw [List.foldl_cons, ih _ (fun e hel => hk e (List.mem_cons_of_mem a hel))]
    exact layerOpacityStep_ne L lam h a k (hk a (List.mem_cons_self a t))

theorem layerOpacityStep_self (L : String) (lam : ℚ) (h : List (ℕ × Obj3D)) (e : Entry)
    (hL : jsStr e.config.layer "main" = L)
    (o : Obj3D) (ho : lookupHeap h e.threeObj = some o)
    (hmesh : o.isMesh = true) (m : MaterialState) (hm : o.material = some m) :
    layerOpacityStep L lam h e =
      setHeap h e.threeObj
        { o with
          material := some
            (recomputedMat (jsOrQ (e.config.material.bind (·.opacity)) 1) lam m) } := by
  unfold layerOpacityStep recomputedMat
  rw [if_pos hL, ho]
  simp only [hmesh, if_true, hm]

/-- Helper: the exact post-state of one `updateLayerOpacity` call at a
member mesh, for any starting state whose entry keys are duplicate-free. -/
theorem updateLayerOpacity_mat
    (s : ICState) (L : String) (lam : ℚ)
    (e : Entry) (he : e ∈ s.objects) (hL : jsStr e.config.layer "main" = L)
    (o : Obj3D) (ho : lookupHeap s.heap e.threeObj = some o)
    (hmesh : o.isMesh = true) (m : MaterialState) (hm : o.material = some m)
    (hkeys : (s.objects.map (·.threeObj)).Nodup) :
    lookupHeap (updateLayerOpacity s L lam).heap e.threeObj =
      some
        { o with
          material := some
            (recomputedMat (jsOrQ (e.config.material.bind (·.opacity)) 1) lam m) } := by
  obtain ⟨l1, l2, heq⟩ := List.append_of_mem he
  have hkeys' := hkeys
  rw [heq] at hkeys'
  simp only [List.map_append, List.map_cons, List.nodup_append, List.nodup_cons,
    List.disjoint_cons_right, List.mem_cons, List.mem_map, List.mem_append] at hkeys'
  have hnot1 : ∀ a ∈ l1, a.threeObj ≠ e.threeObj := by
    intro a ha hcontra
    exact hkeys'.2.2.1 ⟨a, ha, hcontra⟩
  have hnot2 : ∀ a ∈ l2, a.threeObj ≠ e.threeObj := by
    intro a ha hcontra
    exact hkeys'.2.1.1 ⟨a, ha, hcontra⟩
  show lookupHeap (s.objects.foldl (layerOpacityStep L lam) s.heap) e.threeObj = _
  rw [heq, List.foldl_append, List.foldl_cons]
  have h1 : lookupHeap (l1.foldl (layerOpacityStep L lam) s.heap) e.threeObj = some o := by
    rw [foldl_layerOpacityStep_ne L lam l1 s.heap e.threeObj hnot1]
    exact ho
  rw [foldl_layerOpacityStep_ne L lam l2 _ e.threeObj hnot2,
    layerOpacityStep_self L lam _ e hL o h1 hmesh m hm]
  exact lookupHeap_setHeap_self _ _ _ _ h1

/-- C8: `updateLayerOpacity` recomputes every member mesh's material
opacity as the object's *base* config material opacity (read `|| 1`)
times the layer opacity — never from the previously scaled value, so a
second call (after any earlier layer opacity `lam0`) yields the same
opacity; a layer opacity `< 1` marks the material transparent, and
setting it back to `1` restores opacity `1` and `transparent := false`
whenever the base opacity is `1`. -/
theorem layer_opacity_recompute
    (s : ICState) (L : String) (lam : ℚ) (hlam : lam ≤ 1)
    (e : Entry) (he : e ∈ s.objects) (hL : jsStr e.config.layer "main" = L)
    (o : Obj3D) (ho : lookupHeap s.heap e.threeObj = some o)
    (hmesh : o.isMesh = true) (m : MaterialState) (hm : o.material = some m)
    (hkeys : (s.objects.map (·.threeObj)).Nodup) :
    ∃ o1 m1,
      lookupHeap (updateLayerOpacity s L lam).heap e.threeObj = some o1 ∧
      o1.material = some m1 ∧
      m1.opacity = jsOrQ (e.config.material.bind (·.opacity)) 1 * lam ∧
      (lam < 1 → m1.transparent = true) ∧
      (lam = 1 → jsOrQ (e.config.material.bind (·.opacity)) 1 = 1 →
        m1.transparent = false) ∧
      (∀ lam0, ∃ o2 m2,
        lookupHeap (updateLayerOpacity (updateLayerOpacity s L lam0) L lam).heap e.threeObj
          = some o2 ∧ o2.material = some m2 ∧ m2.opacity = m1.opacity) := by
  have hbase := updateLayerOpacity_mat s L lam e he hL o ho hmesh m hm hkeys
  refine ⟨_, recomputedMat (jsOrQ (e.config.material.bind (·.opacity)) 1) lam m,
    hbase, rfl, ?_, ?_, ?_, ?_⟩
  · simp only [recomputedMat]
    split_ifs with h h2
    · rfl
    · rw [le_antisymm hlam (not_lt.mp h), mul_one]
    · rw [le_antisymm hlam (not_lt.mp h), mul_one]
  · intro h
    unfold recomputedMat
    rw [if_pos h]
  · intro h hb
    unfold recomputedMat
    rw [if_neg (by rw [h]; exact lt_irrefl 1), if_pos hb]
  · intro lam0
    have h0 := updateLayerOpacity_mat s L lam0 e he hL o ho hmesh m hm hkeys
    have he' : e ∈ (updateLayerOpacity s L lam0).objects := he
    have hkeys2 : ((updateLayerOpacity s L lam0).objects.map (·.threeObj)).Nodup := hkeys
    have h1 := updateLayerOpacity_mat (updateLayerOpacity s L lam0) L lam e he' hL
      _ h0 hmesh _ rfl hkeys2
    refine ⟨_, recomputedMat (jsOrQ (e.config.material.bind (·.opacity)) 1) lam
      (recomputedMat (jsOrQ (e.config.material.bind (·.opacity)) 1) lam0 m), h1, rfl, ?_⟩
    unfold recomputedMat
    split_ifs <;> rfl

/-- C8 witness: one mesh on layer "fx" with base opacity 1, layer opacity
set to 1/2. -/
def matC8 : MaterialState := { transparent := false, opacity := 1 }
def meshC8 : Obj3D := { key := 3, isMesh := true, material := some matC8 }
def cfgC8 : Config :=
  { type := some .mesh, name := some "m", layer := some "fx",
    material := some { type := some .phong, opacity := some 1 } }
def stateC8 : ICState :=
  { layers := [("main", ⟨true, 1⟩), ("fx", ⟨true, 1⟩)],
    objects := [⟨some "m", 3, cfgC8⟩], heap := [(3, meshC8)], sceneKeys := [3], nextKey := 4 }

theorem layer_opacity_recompute_witness :
    ∃ o1 m1,
      lookupHeap (updateLayerOpacity stateC8 "fx" (1/2)).heap
        (Entry.threeObj ⟨some "m", 3, cfgC8⟩) = some o1 ∧
      o1.material = some m1 ∧
      m1.opacity = jsOrQ ((Entry.config ⟨some "m", 3, cfgC8⟩).material.bind (·.opacity)) 1 * (1/2) ∧
      ((1:ℚ)/2 < 1 → m1.transparent = true) ∧
      ((1:ℚ)/2 = 1 → jsOrQ ((Entry.config ⟨some "m", 3, cfgC8⟩).material.bind (·.opacity)) 1 = 1 →
        m1.transparent = false) ∧
      (∀ lam0, ∃ o2 m2,
        lookupHeap (updateLayerOpacity (updateLayerOpacity stateC8 "fx" lam0) "fx" (1/2)).heap
          (Entry.threeObj ⟨some "m", 3, cfgC8⟩) = some o2 ∧
        o2.material = some m2 ∧ m2.opacity = m1.opacity) :=
  layer_opacity_recompute stateC8 "fx" (1/2) (by norm_num) ⟨some "m", 3, cfgC8⟩
    (by decide) (by decide) meshC8 (by decide) rfl matC8 rfl (by decide)


/-! ## C10 — layer auto-creation defaults -/

theorem lookupLayer_cons (p : String × LayerInfo) (t : List (String × LayerInfo)) (k : String) :
    lookupLayer (p :: t) k = if p.1 = k then some p.2 else lookupLayer t k := by
  by_cases hp : p.1 = k <;> simp [lookupLayer, List.find?_cons, hp]

theorem lookupLayer_append (ls l2 : List (String × LayerInfo)) (k : String) (v : LayerInfo)
    (hv : lookupLayer ls k = some v) : lookupLayer (ls ++ l2) k = some v := by
  induction ls with
  | nil => simp [lookupLayer] at hv
  | cons p t ih =>
    rw [lookupLayer_cons] at hv
    rw [List.cons_append, lookupLayer_cons]
    by_cases hp : p.1 = k
    · rw [if_pos hp] at hv ⊢; exact hv
    · rw [if_neg hp] at hv ⊢; exact ih hv

theorem lookupLayer_append_missing (ls : List (String × LayerInfo)) (k : String)
    (li : LayerInfo) (h : lookupLayer ls k = none) :
    lookupLayer (ls ++ [(k, li)]) k = some li := by
  induction ls with
  | nil => simp [lookupLayer]
  | cons p t ih =>
    rw [lookupLayer_cons] at h
    rw [List.cons_append, lookupLayer_cons]
    by_cases hp : p.1 = k
    · rw [if_pos hp] at h; exact absurd h (by simp)
    · rw [if_neg hp] at h ⊢; exact ih h

theorem lookupLayer_ensure_missing (ls : List (String × LayerInfo)) (k : String)
    (li : LayerInfo) (h : lookupLayer ls k = none) :
    lookupLayer (ensureLayer ls k li) k = some li := by
  unfold ensureLayer
  rw [h]
  exact lookupLayer_append_missing ls k li h

theorem lookupLayer_ensure_preserve (ls : List (String × LayerInfo)) (L k : String)
    (d li : LayerInfo) (hv : lookupLayer ls k = some li) :
    lookupLayer (ensureLayer ls L d) k = some li := by
  unfold ensureLayer
  split_ifs with h
  · exact hv
  · exact lookupLayer_append ls [(L, d)] k li hv

theorem lookupHeap_append_missing (h : List (ℕ × Obj3D)) (k : ℕ) (o : Obj3D)
    (hk : lookupHeap h k = none) : lookupHeap (h ++ [(k, o)]) k = some o := by
  induction h with
  | nil => simp [lookupHeap]
  | cons p t ih =>
    rw [lookupHeap_cons] at hk
    rw [List.cons_append, lookupHeap_cons]
    by_cases hp : p.1 = k
    · rw [if_pos hp] at hk; exact absurd hk (by simp)
    · rw [if_neg hp] at hk ⊢; exact ih hk

theorem setGravityConfig_layers (s : ICState) (g : GravityCfg) :
    (setGravityConfig s g).layers = s.layers := by
  simp only [setGravityConfig]
  split_ifs <;> rfl

theorem finishAdd_layers (s : ICState) (cfg : Config) (obj0 : Obj3D) :
    (finishAdd s cfg obj0).2.layers = s.layers := rfl

theorem addMeshPath_layers (s : ICState) (cfg : Config) (L : String) :
    (addMeshPath s cfg L).2.layers = s.layers := by
  unfold addMeshPath
  cases createGeometry cfg.shape with
  | none => rfl
  | some geom =>
    cases createMaterialFromObj (defaultedMaterial cfg) with
    | none => rfl
    | some mat0 => split_ifs <;> rfl

/-- `addObject` touches the layer table exactly once: the up-front
`ensureLayer` with `{ visible: true, opacity: 0.5 }`. -/
theorem layers_addObject (s : ICState) (config : Config) :
    (addObject s config).2.layers =
      ensureLayer s.layers (jsStr config.layer "main") ⟨true, 1/2⟩ := by
  simp only [addObject]
  split <;>
    first
    | rfl
    | exact addMeshPath_layers _ _ _
    | exact finishAdd_layers _ _ _
    | (split <;>
        first
        | rfl
        | exact setGravityConfig_layers _ _
        | exact finishAdd_layers _ _ _)

theorem addObject_layers_preserve (s : ICState) (cfg : Config) (k : String) (li : LayerInfo)
    (hv : lookupLayer s.layers k = some li) :
    lookupLayer (addObject s cfg).2.layers k = some li := by
  rw [layers_addObject]
  exact lookupLayer_ensure_preserve _ _ _ _ _ hv

theorem addObjectsToLayer_fresh_layer (s : ICState) (L : String) (configs : List Config)
    (hmiss : lookupLayer s.layers L = none) :
    lookupLayer (addObjectsToLayer s L configs).2.layers L = some ⟨true, 1⟩ := by
  unfold addObjectsToLayer
  have h0 : lookupLayer (ensureLayer s.layers L ⟨true, 1⟩) L = some ⟨true, 1⟩ :=
    lookupLayer_ensure_missing _ _ _ hmiss
  suffices hgen : ∀ (acc : List ℕ × ICState), lookupLayer acc.2.layers L = some ⟨true, 1⟩ →
      lookupLayer (configs.foldl (fun acc config =>
        (acc.1 ++ [23098409234],
         (addObject acc.2 { config with layer := some L }).2)) acc).2.layers L
        = some ⟨true, 1⟩ by
    exact hgen _ h0
  intro acc hacc
  induction configs generalizing acc with
  | nil => exact hacc
  | cons c cs ih =>
    rw [List.foldl_cons]
    exact ih _ (addObject_layers_preserve _ _ _ _ hacc)

theorem updateObject_fresh_layer
    (s : ICState) (id : Option String) (updates : Config) (L : String)
    (hlay : updates.layer = some L)
    (hmiss : lookupLayer s.layers L = none)
    (index : ℕ) (item : Entry)
    (hidx : s.objects.findIdx? (fun o => decide (o.id = id)) = some index)
    (hitem : s.objects[index]? = some item)
    (obj0 : Obj3D) (hheap : lookupHeap s.heap item.threeObj = some obj0) :
    lookupLayer (updateObject s id updates).layers L = some ⟨true, 1/2⟩ := by
  simp only [updateObject, hidx, hitem, hheap, hlay]
  exact lookupLayer_ensure_missing _ _ _ hmiss

theorem addObject_mesh_fresh_layer
    (s : ICState) (config : Config) (L : String)
    (hty : config.type = some ConfigType.mesh ∨ config.type = none)
    (hlay : config.layer = some L) (hne : L ≠ "")
    (hmiss : lookupLayer s.layers L = none)
    (geom : ShapeCfg) (hgeom : createGeometry config.shape = some geom)
    (mat0 : MaterialState)
    (hmat : createMaterialFromObj (defaultedMaterial config) = some mat0)
    (hfresh : lookupHeap s.heap s.nextKey = none) :
    ∃ o, lookupHeap (addObject s config).2.heap s.nextKey = some o ∧
      o.material = some { transparent := true, opacity := mat0.opacity * (1/2) } ∧
      ∃ e, (addObject s config).2.objects = s.objects ++ [e] ∧ e.threeObj = s.nextKey := by
  have hjs : jsStr config.layer "main" = L := by
    rw [hlay]
    simp [jsStr, hne]
  have hlook : lookupLayer (ensureLayer s.layers L ⟨true, 1/2⟩) L = some ⟨true, 1/2⟩ :=
    lookupLayer_ensure_missing _ _ _ hmiss
  have h12 : ((1:ℚ)/2) < 1 := by norm_num
  rcases hty with hty | hty
  · have hmat2 : createMaterialFromObj (defaultedMaterial
        { type := some ConfigType.mesh, name := config.name, pos := config.pos,
          euler := config.euler, rot := config.rot, scale := config.scale,
          layer := some L, enabled := some (config.enabled.getD true),
          shape := config.shape, material := config.material, color := config.color,
          physics := config.physics, lightType := config.lightType,
          helperType := config.helperType, intensity := config.intensity,
          gravity := config.gravity }) = some mat0 := hmat
    simp only [addObject, hty, hjs, addMeshPath, hgeom, hmat2, hlook, Option.map_some',
      Option.getD_some, if_pos h12, finishAdd]
    split_ifs <;>
      exact ⟨_, lookupHeap_append_missing _ _ _ hfresh, rfl, ⟨_, rfl, rfl⟩⟩
  · have hmat2 : createMaterialFromObj (defaultedMaterial
        { type := none, name := config.name, pos := config.pos,
          euler := config.euler, rot := config.rot, scale := config.scale,
          layer := some L, enabled := some (config.enabled.getD true),
          shape := config.shape, material := config.material, color := config.color,
          physics := config.physics, lightType := config.lightType,
          helperType := config.helperType, intensity := config.intensity,
          gravity := config.gravity }) = some mat0 := hmat
    simp only [addObject, hty, hjs, addMeshPath, hgeom, hmat2, hlook, Option.map_some',
      Option.getD_some, if_pos h12, finishAdd]
    split_ifs <;>
      exact ⟨_, lookupHeap_append_missing _ _ _ hfresh, rfl, ⟨_, rfl, rfl⟩⟩

/-- C10: when `addObject` (or `updateObject` changing an object to a new
layer) names a layer that does not exist, the layer is created with
`visible := true` and `opacity := 0.5`; consequently the very mesh whose
add created the fresh layer is stored with `transparent := true` and its
created material opacity multiplied by `0.5`, although no opacity was
requested; by contrast `addObjectsToLayer` creates missing layers with
opacity `1.0`. -/
theorem fresh_layer_defaults (s : ICState) (L : String)
    (hmiss : lookupLayer s.layers L = none) (hne : L ≠ "") :
    (∀ config, config.layer = some L →
      lookupLayer (addObject s config).2.layers L = some ⟨true, 1/2⟩) ∧
    (∀ config geom mat0, config.layer = some L →
      (config.type = some ConfigType.mesh ∨ config.type = none) →
      createGeometry config.shape = some geom →
      createMaterialFromObj (defaultedMaterial config) = some mat0 →
      lookupHeap s.heap s.nextKey = none →
      ∃ o, lookupHeap (addObject s config).2.heap s.nextKey = some o ∧
        o.material = some { transparent := true, opacity := mat0.opacity * (1/2) } ∧
        ∃ e, (addObject s config).2.objects = s.objects ++ [e] ∧ e.threeObj = s.nextKey) ∧
    (∀ id updates index item obj0, updates.layer = some L →
      s.objects.findIdx? (fun o => decide (o.id = id)) = some index →
      s.objects[index]? = some item →
      lookupHeap s.heap item.threeObj = some obj0 →
      lookupLayer (updateObject s id updates).layers L = some ⟨true, 1/2⟩) ∧
    (∀ configs, lookupLayer (addObjectsToLayer s L configs).2.layers L = some ⟨true, 1⟩) := by
  refine ⟨?_, ?_, ?_, ?_⟩
  · intro config hlay
    rw [layers_addObject]
    have hjs : jsStr config.layer "main" = L := by
      rw [hlay]
      simp [jsStr, hne]
    rw [hjs]
    exact lookupLayer_ensure_missing _ _ _ hmiss
  · intro config geom mat0 hlay hty hgeom hmat hfresh
    exact addObject_mesh_fresh_layer s config L hty hlay hne hmiss geom hgeom mat0 hmat hfresh
  · intro id updates index item obj0 hlay hidx hitem hheap
    exact updateObject_fresh_layer s id updates L hlay hmiss index item hidx hitem obj0 hheap
  · intro configs
    exact addObjectsToLayer_fresh_layer s L configs hmiss

/-- C10 witness: a one-object state; adding a box to the fresh layer
"fx", relayering the existing object to "fx", and `addObjectsToLayer`. -/
def cfgX : Config :=
  { type := some .mesh, name := some "x", shape := some { type := some ShapeType.box } }
def meshX : Obj3D := { key := 0, isMesh := true }
def stateW : ICState :=
  { layers := [("main", ⟨true, 1⟩)], objects := [⟨some "x", 0, cfgX⟩],
    heap := [(0, meshX)], sceneKeys := [0], nextKey := 1 }
def cfgFL : Config :=
  { type := some .mesh, name := some "n", layer := some "fx",
    shape := some { type := some ShapeType.box } }

theorem fresh_layer_defaults_witness :
    lookupLayer (addObject stateW cfgFL).2.layers "fx" = some ⟨true, 1/2⟩ ∧
    (∃ o, lookupHeap (addObject stateW cfgFL).2.heap stateW.nextKey = some o ∧
      o.material = some
        { transparent := true,
          opacity := MaterialState.opacity ⟨false, 1⟩ * (1/2) } ∧
      ∃ e, (addObject stateW cfgFL).2.objects = stateW.objects ++ [e] ∧
        e.threeObj = stateW.nextKey) ∧
    lookupLayer (updateObject stateW (some "x") { layer := some "fx" }).layers "fx"
      = some ⟨true, 1/2⟩ ∧
    lookupLayer (addObjectsToLayer stateW "fx" []).2.layers "fx" = some ⟨true, 1⟩ := by
  have h := fresh_layer_defaults stateW "fx" (by decide) (by decide)
  exact ⟨h.1 cfgFL rfl,
    h.2.1 cfgFL { type := some ShapeType.box } ⟨false, 1⟩ rfl (Or.inl rfl) rfl rfl (by decide),
    h.2.2.1 (some "x") { layer := some "fx" } 0 ⟨some "x", 0, cfgX⟩ meshX rfl (by decide)
      (by decide) (by decide),
    h.2.2.2 []⟩

/-! ## C3 — start/stop transform round-trip -/

/-- The image of a handle after its own snapshot (taken with no
intervening ticks) is restored onto it: transforms unchanged, body (if
any) moved to the snapshot with zeroed velocities. -/
def restoredOf (o : Obj3D) : Obj3D :=
  { o with body := o.body.map (resetBody (snapOf o)) }

theorem restoredOf_position (o : Obj3D) : (restoredOf o).position = o.position := rfl
theorem restoredOf_orient (o : Obj3D) : (restoredOf o).orient = o.orient := rfl
theorem restoredOf_scale (o : Obj3D) : (restoredOf o).scale = o.scale := rfl

theorem mem_mapSet (m : List (Option String × Snapshot)) (k : Option String) (v : Snapshot)
    (p : Option String × Snapshot) (hp : p ∈ mapSet m k v) : p ∈ m ∨ p = (k, v) := by
  unfold mapSet at hp
  split_ifs at hp with h
  · rcases List.mem_map.mp hp with ⟨q, hq, hqe⟩
    by_cases hqk : q.1 = k
    · right
      rw [if_pos hqk] at hqe
      exact hqe.symm
    · left
      rw [if_neg hqk] at hqe
      exact hqe ▸ hq
  · rcases List.mem_append.mp hp with h1 | h1
    · exact Or.inl h1
    · right
      simpa using h1

theorem mem_mapSet_self (m : List (Option String × Snapshot)) (k : Option String)
    (v : Snapshot) : (k, v) ∈ mapSet m k v := by
  unfold mapSet
  split_ifs with h
  · rcases List.any_eq_true.mp h with ⟨q, hq, hqk⟩
    exact List.mem_map.mpr ⟨q, hq, by rw [if_pos (of_decide_eq_true hqk)]⟩
  · exact List.mem_append.mpr (Or.inr (by simp))

theorem mem_mapSet_of_ne (m : List (Option String × Snapshot)) (k : Option String)
    (v : Snapshot) (p : Option String × Snapshot) (hp : p ∈ m) (hne : p.1 ≠ k) :
    p ∈ mapSet m k v := by
  unfold mapSet
  split_ifs with h
  · exact List.mem_map.mpr ⟨p, hp, by rw [if_neg hne]⟩
  · exact List.mem_append.mpr (Or.inl hp)

theorem mapSet_keys (m : List (Option String × Snapshot)) (k : Option String) (v : Snapshot)
    (hnd : (m.map (·.1)).Nodup) : ((mapSet m k v).map (·.1)).Nodup := by
  unfold mapSet
  split_ifs with h
  · have heq : (m.map (fun p => if p.1 = k then (k, v) else p)).map (·.1) = m.map (·.1) := by
      rw [List.map_map]
      apply List.map_congr_left
      intro p _
      by_cases hpk : p.1 = k
      · simp [hpk]
      · simp [hpk]
    rw [heq]
    exact hnd
  · rw [List.map_append]
    have hk : k ∉ m.map (·.1) := by
      intro hmem
      rcases List.mem_map.mp hmem with ⟨q, hq, hqk⟩
      rw [List.any_eq_true] at h
      exact h ⟨q, hq, decide_eq_true hqk⟩
    simp [List.nodup_append, hnd, hk]

theorem find?_id_self (l : List Entry) (e : Entry) (he : e ∈ l)
    (hnd : (l.map (·.id)).Nodup) :
    l.find? (fun x => decide (x.id = e.id)) = some e := by
  induction l with
  | nil => simp at he
  | cons h t ih =>
    rw [List.map_cons, List.nodup_cons] at hnd
    rcases List.mem_cons.mp he with rfl | het
    · simp [List.find?_cons]
    · have hne : h.id ≠ e.id := by
        intro hcontra
        exact hnd.1 (hcontra ▸ List.mem_map.mpr ⟨e, het, rfl⟩)
      rw [List.find?_cons]
      rw [show (decide (h.id = e.id)) = false by simpa using hne]
      exact ih het hnd.2

theorem nodup_map_threeObj_inj (l : List Entry)
    (hnd : (l.map (·.threeObj)).Nodup)
    (a b : Entry) (ha : a ∈ l) (hb : b ∈ l) (hab : a.threeObj = b.threeObj) : a = b := by
  induction l with
  | nil => simp at ha
  | cons x t ih =>
    rw [List.map_cons, List.nodup_cons] at hnd
    rcases List.mem_cons.mp ha with rfl | hat <;> rcases List.mem_cons.mp hb with rfl | hbt
    · rfl
    · exact absurd (List.mem_map.mpr ⟨b, hbt, hab.symm⟩) hnd.1
    · exact absurd (List.mem_map.mpr ⟨a, hat, hab⟩) hnd.1
    · exact ih hnd.2 hat hbt

theorem buildSaved_mem (s : ICState) (l : List Entry) (acc : List (Option String × Snapshot))
    (p : Option String × Snapshot) (hp : p ∈ l.foldl (saveStep s) acc) :
    p ∈ acc ∨ ∃ e' ∈ l, ∃ o', lookupHeap s.heap e'.threeObj = some o' ∧
      (o'.isMesh || o'.isGroup) = true ∧ p = (e'.id, snapOf o') := by
  induction l generalizing acc with
  | nil => exact Or.inl hp
  | cons a t ih =>
    rw [List.foldl_cons] at hp
    rcases ih _ hp with h1 | ⟨e', he', rest⟩
    · cases hlook : lookupHeap s.heap a.threeObj with
      | none =>
        simp only [saveStep, hlook] at h1
        exact Or.inl h1
      | some o' =>
        simp only [saveStep, hlook] at h1
        by_cases hmg : (o'.isMesh || o'.isGroup) = true
        · rw [if_pos hmg] at h1
          rcases mem_mapSet _ _ _ _ h1 with h2 | h2
          · exact Or.inl h2
          · exact Or.inr ⟨a, List.mem_cons_self a t, o', hlook, hmg, h2⟩
        · rw [if_neg hmg] at h1
          exact Or.inl h1
    · exact Or.inr ⟨e', List.mem_cons_of_mem a he', rest⟩

theorem saveStep_preserve (s : ICState) (acc : List (Option String × Snapshot)) (a : Entry)
    (p : Option String × Snapshot) (hp : p ∈ acc) (hne : a.id ≠ p.1) :
    p ∈ saveStep s acc a := by
  cases hlook : lookupHeap s.heap a.threeObj with
  | none => simp only [saveStep, hlook]; exact hp
  | some o' =>
    simp only [saveStep, hlook]
    by_cases hmg : (o'.isMesh || o'.isGroup) = true
    · rw [if_pos hmg]
      exact mem_mapSet_of_ne _ _ _ _ hp (fun hc => hne hc.symm)
    · rw [if_neg hmg]
      exact hp

theorem foldl_save_preserve (s : ICState) (l : List Entry)
    (acc : List (Option String × Snapshot)) (p : Option String × Snapshot)
    (hp : p ∈ acc) (hne : ∀ a ∈ l, a.id ≠ p.1) :
    p ∈ l.foldl (saveStep s) acc := by
  induction l generalizing acc with
  | nil => exact hp
  | cons a t ih =>
    rw [List.foldl_cons]
    exact ih _ (saveStep_preserve s acc a p hp (hne a (List.mem_cons_self a t)))
      (fun b hb => hne b (List.mem_cons_of_mem a hb))

theorem buildSaved_covers (s : ICState) (l : List Entry)
    (acc : List (Option String × Snapshot)) (e : Entry) (he : e ∈ l)
    (hnd : (l.map (·.id)).Nodup) (o : Obj3D)
    (ho : lookupHeap s.heap e.threeObj = some o)
    (hmg : (o.isMesh || o.isGroup) = true) :
    (e.id, snapOf o) ∈ l.foldl (saveStep s) acc := by
  induction l generalizing acc with
  | nil => simp at he
  | cons a t ih =>
    rw [List.map_cons, List.nodup_cons] at hnd
    rw [List.foldl_cons]
    rcases List.mem_cons.mp he with rfl | het
    · have hstep : (e.id, snapOf o) ∈ saveStep s acc e := by
        simp only [saveStep, ho]
        rw [if_pos hmg]
        exact mem_mapSet_self _ _ _
      apply foldl_save_preserve s t _ _ hstep
      intro b hb hcontra
      exact hnd.1 (List.mem_map.mpr ⟨b, hb, hcontra⟩)
    · exact ih _ het hnd.2

theorem buildSaved_keys (s : ICState) (l : List Entry)
    (acc : List (Option String × Snapshot)) (hacc : (acc.map (·.1)).Nodup) :
    ((l.foldl (saveStep s) acc).map (·.1)).Nodup := by
  induction l generalizing acc with
  | nil => exact hacc
  | cons a t ih =>
    rw [List.foldl_cons]
    apply ih
    cases hlook : lookupHeap s.heap a.threeObj with
    | none => simp only [saveStep, hlook]; exact hacc
    | some o' =>
      simp only [saveStep, hlook]
      by_cases hmg : (o'.isMesh || o'.isGroup) = true
      · rw [if_pos hmg]
        exact mapSet_keys _ _ _ hacc
      · rw [if_neg hmg]
        exact hacc

/-- Every saved item: the first registry entry matching its id exists in
the heap and the snapshot equals that object's current transform. -/
def itemOK (s : ICState) (p : Option String × Snapshot) : Prop :=
  ∀ e', s.objects.find? (fun x => decide (x.id = p.1)) = some e' →
    ∃ o', lookupHeap s.heap e'.threeObj = some o' ∧ p.2 = snapOf o'

theorem buildSaved_itemOK (s : ICState) (hIds : (s.objects.map (·.id)).Nodup)
    (p : Option String × Snapshot) (hp : p ∈ s.objects.foldl (saveStep s) []) :
    itemOK s p := by
  rcases buildSaved_mem s s.objects [] p hp with h | ⟨e', he', o', ho', hmg, rfl⟩
  · simp at h
  · intro e'' hfind
    simp only at hfind
    rw [find?_id_self s.objects e' he' hIds] at hfind
    obtain rfl : e' = e'' := by injection hfind
    exact ⟨o', ho', rfl⟩

theorem restoreOne_objects (t : ICState) (p : Option String × Snapshot) :
    (restoreOne t p).objects = t.objects := by
  cases hfind : t.objects.find? (fun x => decide (x.id = p.1)) with
  | none => simp only [restoreOne, hfind]
  | some e' =>
    cases hlook : lookupHeap t.heap e'.threeObj with
    | none => simp only [restoreOne, hfind, hlook]
    | some o => simp only [restoreOne, hfind, hlook]

theorem restoreOne_physInit (t : ICState) (p : Option String × Snapshot) :
    (restoreOne t p).physInit = t.physInit := by
  cases hfind : t.objects.find? (fun x => decide (x.id = p.1)) with
  | none => simp only [restoreOne, hfind]
  | some e' =>
    cases hlook : lookupHeap t.heap e'.threeObj with
    | none => simp only [restoreOne, hfind, hlook]
    | some o => simp only [restoreOne, hfind, hlook]

theorem restoreOne_untouched (s t : ICState) (p : Option String × Snapshot)
    (hobj : t.objects = s.objects)
    (hKeys : (s.objects.map (·.threeObj)).Nodup)
    (e : Entry) (he : e ∈ s.objects) (hne : p.1 ≠ e.id) :
    lookupHeap (restoreOne t p).heap e.threeObj = lookupHeap t.heap e.threeObj := by
  cases hfind : t.objects.find? (fun x => decide (x.id = p.1)) with
  | none => simp only [restoreOne, hfind]
  | some e'' =>
    cases hlook : lookupHeap t.heap e''.threeObj with
    | none => simp only [restoreOne, hfind, hlook]
    | some o'' =>
      simp only [restoreOne, hfind, hlook]
      apply lookupHeap_setHeap_ne
      intro hcontra
      rw [hobj] at hfind
      have hmem := List.mem_of_find?_eq_some hfind
      have hpred := List.find?_some hfind
      have hid : e''.id = p.1 := of_decide_eq_true hpred
      have heq : e = e'' := nodup_map_threeObj_inj s.objects hKeys e e'' he hmem hcontra
      apply hne
      rw [heq]
      exact hid.symm

theorem foldl_restore_untouched (s : ICState) (l : List (Option String × Snapshot))
    (t : ICState) (hobj : t.objects = s.objects)
    (hKeys : (s.objects.map (·.threeObj)).Nodup)
    (e : Entry) (he : e ∈ s.objects) (hne : ∀ p ∈ l, p.1 ≠ e.id) :
    lookupHeap (l.foldl restoreOne t).heap e.threeObj = lookupHeap t.heap e.threeObj := by
  induction l generalizing t with
  | nil => rfl
  | cons a r ih =>
    rw [List.foldl_cons]
    rw [ih (restoreOne t a) (by rw [restoreOne_objects]; exact hobj)
      (fun p hp => hne p (List.mem_cons_of_mem a hp))]
    exact restoreOne_untouched s t a hobj hKeys e he (hne a (List.mem_cons_self a r))

theorem restoreOne_at_key (t : ICState) (p : Option String × Snapshot)
    (hphys : t.physInit = true)
    (e' : Entry) (hfind : t.objects.find? (fun x => decide (x.id = p.1)) = some e')
    (o' : Obj3D) (hsnap : p.2 = snapOf o')
    (hcur : lookupHeap t.heap e'.threeObj = some o' ∨
            lookupHeap t.heap e'.threeObj = some (restoredOf o')) :
    lookupHeap (restoreOne t p).heap e'.threeObj = some (restoredOf o') := by
  rcases hcur with hc | hc
  · simp only [restoreOne, hfind, hc]
    rw [lookupHeap_setHeap_self _ _ _ _ hc]
    congr 1
    rw [hsnap]
    cases o' with
    | mk k2 im ig pos ori sc vis gs mat bod ul ue bb lc li =>
      cases bod with
      | none => simp [restoredOf, snapOf]
      | some b => simp [restoredOf, snapOf, resetBody, hphys]
  · simp only [restoreOne, hfind, hc]
    rw [lookupHeap_setHeap_self _ _ _ _ hc]
    congr 1
    rw [hsnap]
    cases o' with
    | mk k2 im ig pos ori sc vis gs mat bod ul ue bb lc li =>
      cases bod with
      | none => simp [restoredOf, snapOf]
      | some b => simp [restoredOf, snapOf, resetBody, hphys]

theorem restoreOne_inv (s t : ICState) (p : Option String × Snapshot)
    (hobj : t.objects = s.objects) (hphys : t.physInit = true)
    (hOK : itemOK s p)
    (hinv : ∀ k, lookupHeap t.heap k = lookupHeap s.heap k ∨
      lookupHeap t.heap k = (lookupHeap s.heap k).map restoredOf) :
    ∀ k, lookupHeap (restoreOne t p).heap k = lookupHeap s.heap k ∨
      lookupHeap (restoreOne t p).heap k = (lookupHeap s.heap k).map restoredOf := by
  intro k
  cases hfind : t.objects.find? (fun x => decide (x.id = p.1)) with
  | none =>
    simp only [restoreOne, hfind]
    exact hinv k
  | some e' =>
    have hfind' : s.objects.find? (fun x => decide (x.id = p.1)) = some e' := hobj ▸ hfind
    obtain ⟨o', ho', hsnap⟩ := hOK e' hfind'
    by_cases hk : k = e'.threeObj
    · subst hk
      have hcur : lookupHeap t.heap e'.threeObj = some o' ∨
          lookupHeap t.heap e'.threeObj = some (restoredOf o') := by
        rcases hinv e'.threeObj with hc | hc
        · left
          rw [hc, ho']
        · right
          rw [hc, ho']
          rfl
      right
      rw [restoreOne_at_key t p hphys e' hfind o' hsnap hcur, ho']
      rfl
    · cases hlook : lookupHeap t.heap e'.threeObj with
      | none =>
        simp only [restoreOne, hfind, hlook]
        exact hinv k
      | some o'' =>
        simp only [restoreOne, hfind, hlook]
        rw [lookupHeap_setHeap_ne _ _ _ _ hk]
        exact hinv k

theorem foldl_restore_inv (s : ICState) (l : List (Option String × Snapshot)) (t : ICState)
    (hobj : t.objects = s.objects) (hphys : t.physInit = true)
    (hOK : ∀ p ∈ l, itemOK s p)
    (hinv : ∀ k, lookupHeap t.heap k = lookupHeap s.heap k ∨
      lookupHeap t.heap k = (lookupHeap s.heap k).map restoredOf) :
    (l.foldl restoreOne t).objects = s.objects ∧
    (∀ k, lookupHeap (l.foldl restoreOne t).heap k = lookupHeap s.heap k ∨
      lookupHeap (l.foldl restoreOne t).heap k = (lookupHeap s.heap k).map restoredOf) := by
  induction l generalizing t with
  | nil => exact ⟨hobj, hinv⟩
  | cons a r ih =>
    rw [List.foldl_cons]
    exact ih (restoreOne t a)
      (by rw [restoreOne_objects]; exact hobj)
      (by rw [restoreOne_physInit]; exact hphys)
      (fun p hp => hOK p (List.mem_cons_of_mem a hp))
      (restoreOne_inv s t a hobj hphys (hOK a (List.mem_cons_self a r)) hinv)

theorem foldl_restore_physInit (l : List (Option String × Snapshot)) (t : ICState) :
    (l.foldl restoreOne t).physInit = t.physInit := by
  induction l generalizing t with
  | nil => rfl
  | cons a r ih => rw [List.foldl_cons, ih, restoreOne_physInit]

/-- Restoring every snapshot taken by `saveObjectTransforms` over any base
state that shares the registry, heap and initialized flag with `s` brings
each handle's transform back to its pre-save value and, for mesh/group
handles still holding a body, resets that body to the snapshot. -/
theorem restore_all (s t0 : ICState)
    (hobj : t0.objects = s.objects) (hphys : t0.physInit = true)
    (hheap : t0.heap = s.heap)
    (hIds : (s.objects.map (·.id)).Nodup)
    (hKeys : (s.objects.map (·.threeObj)).Nodup)
    (e : Entry) (he : e ∈ s.objects)
    (o : Obj3D) (ho : lookupHeap s.heap e.threeObj = some o) :
    ∃ o2, lookupHeap ((s.objects.foldl (saveStep s) []).foldl restoreOne t0).heap
        e.threeObj = some o2 ∧
      o2.position = o.position ∧ o2.orient = o.orient ∧ o2.scale = o.scale ∧
      ((o.isMesh || o.isGroup) = true →
        ∀ b, o.body = some b → o2.body = some (resetBody (snapOf o) b)) := by
  have hOK : ∀ p ∈ s.objects.foldl (saveStep s) [], itemOK s p :=
    fun p hp => buildSaved_itemOK s hIds p hp
  have hinv0 : ∀ k, lookupHeap t0.heap k = lookupHeap s.heap k ∨
      lookupHeap t0.heap k = (lookupHeap s.heap k).map restoredOf :=
    fun k => Or.inl (by rw [hheap])
  by_cases hmg : (o.isMesh || o.isGroup) = true
  · obtain ⟨pre, post, hsplit⟩ :=
      List.append_of_mem (buildSaved_covers s s.objects [] e he hIds o ho hmg)
    have hknd : ((s.objects.foldl (saveStep s) []).map (·.1)).Nodup :=
      buildSaved_keys s s.objects [] (by simp)
    rw [hsplit, List.map_append, List.map_cons, List.nodup_append] at hknd
    have hnd2 := hknd.2.1
    rw [List.nodup_cons] at hnd2
    have hpostne : ∀ p ∈ post, p.1 ≠ e.id := by
      intro p hp hcontra
      exact hnd2.1 (List.mem_map.mpr ⟨p, hp, hcontra⟩)
    have hOKpre : ∀ p ∈ pre, itemOK s p := fun p hp =>
      hOK p (by rw [hsplit]; exact List.mem_append_left _ hp)
    rw [hsplit, List.foldl_append, List.foldl_cons]
    obtain ⟨hpre_obj, hpre_inv⟩ := foldl_restore_inv s pre t0 hobj hphys hOKpre hinv0
    have hpre_phys : (pre.foldl restoreOne t0).physInit = true := by
      rw [foldl_restore_physInit]
      exact hphys
    have hfind : (pre.foldl restoreOne t0).objects.find?
        (fun x => decide (x.id = (e.id, snapOf o).1)) = some e := by
      rw [hpre_obj]
      exact find?_id_self s.objects e he hIds
    have hcur : lookupHeap (pre.foldl restoreOne t0).heap e.threeObj = some o ∨
        lookupHeap (pre.foldl restoreOne t0).heap e.threeObj = some (restoredOf o) := by
      rcases hpre_inv e.threeObj with hc | hc
      · left
        rw [hc, ho]
      · right
        rw [hc, ho]
        rfl
    have hmid : lookupHeap (restoreOne (pre.foldl restoreOne t0) (e.id, snapOf o)).heap
        e.threeObj = some (restoredOf o) :=
      restoreOne_at_key _ _ hpre_phys e hfind o rfl hcur
    have hobj2 : (restoreOne (pre.foldl restoreOne t0) (e.id, snapOf o)).objects
        = s.objects := by
      rw [restoreOne_objects, hpre_obj]
    have hfin : lookupHeap ((post.foldl restoreOne
        (restoreOne (pre.foldl restoreOne t0) (e.id, snapOf o)))).heap e.threeObj
        = some (restoredOf o) := by
      rw [foldl_restore_untouched s post _ hobj2 hKeys e he hpostne]
      exact hmid
    exact ⟨restoredOf o, hfin, rfl, rfl, rfl, fun _ b hb => by
      simp only [restoredOf, hb, Option.map_some']⟩
  · obtain ⟨hfobj, hfinv⟩ :=
      foldl_restore_inv s (s.objects.foldl (saveStep s) []) t0 hobj hphys hOK hinv0
    rcases hfinv e.threeObj with hc | hc
    · exact ⟨o, by rw [hc, ho], rfl, rfl, rfl, fun h => absurd h hmg⟩
    · refine ⟨restoredOf o, ?_, restoredOf_position o, restoredOf_orient o,
        restoredOf_scale o, fun h => absurd h hmg⟩
      rw [hc, ho]
      rfl

/-- C3: `startPhysics` snapshots every mesh/group's position, rotation
quaternion and scale under its id; a `stopPhysics` issued with no
intervening simulation ticks succeeds and restores every registered
object's transform to its pre-start value, and any object that still
holds a physics body has that body's position/rotation reset to the
snapshot with linear and angular velocities zeroed — stop after start is
the identity on transforms (given an initialized engine and a registry
with duplicate-free ids and handle keys). -/
theorem startStop_restores_transforms
    (s : ICState) (hinit : s.physInit = true)
    (hIds : (s.objects.map (·.id)).Nodup)
    (hKeys : (s.objects.map (·.threeObj)).Nodup)
    (e : Entry) (he : e ∈ s.objects)
    (o : Obj3D) (ho : lookupHeap s.heap e.threeObj = some o) :
    (startPhysics s).1 = true ∧
    (stopPhysics (startPhysics s).2).1 = true ∧
    ((o.isMesh || o.isGroup) = true →
      (e.id, snapOf o) ∈ (startPhysics s).2.savedTransforms) ∧
    ∃ o2, lookupHeap (stopPhysics (startPhysics s).2).2.heap e.threeObj = some o2 ∧
      o2.position = o.position ∧ o2.orient = o.orient ∧ o2.scale = o.scale ∧
      ((o.isMesh || o.isGroup) = true →
        ∀ b, o.body = some b → o2.body = some (resetBody (snapOf o) b)) := by
  have hsp : startPhysics s = (true,
      { saveObjectTransforms s with isPhysicsRunning := true, lastActionTime := 0 }) := by
    unfold startPhysics
    rw [if_pos hinit]
  have h1 : (startPhysics s).1 = true := by rw [hsp]
  have h2 : (startPhysics s).2 =
      { saveObjectTransforms s with isPhysicsRunning := true, lastActionTime := 0 } := by
    rw [hsp]
  have hst : stopPhysics (startPhysics s).2 =
      (true, (s.objects.foldl (saveStep s) []).foldl restoreOne
        { saveObjectTransforms s with
          isPhysicsRunning := false, lastActionTime := 0 }) := by
    rw [h2]
    unfold stopPhysics
    rw [if_pos (show ({ saveObjectTransforms s with
      isPhysicsRunning := true, lastActionTime := 0 } : ICState).physInit = true
      from hinit)]
    rfl
  refine ⟨h1, ?_, ?_, ?_⟩
  · rw [hst]
  · intro hmg
    rw [h2]
    show (e.id, snapOf o) ∈ s.objects.foldl (saveStep s) []
    exact buildSaved_covers s s.objects [] e he hIds o ho hmg
  · rw [hst]
    show ∃ o2, lookupHeap ((s.objects.foldl (saveStep s) []).foldl restoreOne
        { saveObjectTransforms s with
          isPhysicsRunning := false, lastActionTime := 0 }).heap e.threeObj = some o2 ∧
      o2.position = o.position ∧ o2.orient = o.orient ∧ o2.scale = o.scale ∧
      ((o.isMesh || o.isGroup) = true →
        ∀ b, o.body = some b → o2.body = some (resetBody (snapOf o) b))
    exact restore_all s
      { saveObjectTransforms s with
        isPhysicsRunning := false, lastActionTime := 0 }
      rfl hinit rfl hIds hKeys e he o ho

def bodyC3 : Body :=
  { pos := ⟨7, 8, 9⟩, rot := .identity, motion := .dynamic, objLayer := LAYER_MOVING,
    shape := .box (some (1/2)) (some (1/2)) (some (1/2)) }

def objC3 : Obj3D :=
  { key := 0, isMesh := true, position := ⟨1, 2, 3⟩, scale := ⟨1, 1, 1⟩,
    body := some bodyC3 }

def entC3 : Entry :=
  { id := some "a", threeObj := 0, config := { type := some ConfigType.mesh } }

def stateC3 : ICState :=
  { objects := [entC3], heap := [(0, objC3)], sceneKeys := [0],
    physInit := true, nextKey := 1 }

theorem startStop_restores_transforms_witness :
    (startPhysics stateC3).1 = true ∧
    (stopPhysics (startPhysics stateC3).2).1 = true ∧
    ((objC3.isMesh || objC3.isGroup) = true →
      (entC3.id, snapOf objC3) ∈ (startPhysics stateC3).2.savedTransforms) ∧
    ∃ o2, lookupHeap (stopPhysics (startPhysics stateC3).2).2.heap entC3.threeObj
        = some o2 ∧
      o2.position = objC3.position ∧ o2.orient = objC3.orient ∧
      o2.scale = objC3.scale ∧
      ((objC3.isMesh || objC3.isGroup) = true →
        ∀ b, objC3.body = some b → o2.body = some (resetBody (snapOf objC3) b)) :=
  startStop_restores_transforms stateC3 rfl (by decide) (by decide) entC3
    (List.mem_singleton_self entC3) objC3 rfl
end IsoCard
